import Mathlib

/-!
Verification development for the arepyextras-perturbations atmospheric delay
estimation modules (ionosphere.py and troposphere.py).

The Python source is shallowly embedded: machine floats become rationals,
numpy arrays become lists of rationals, Python exceptions become an explicit
error type threaded through Except, and datetime values become an explicit
Gregorian-calendar record. External collaborators (arepytools geometry and
timing helpers, scipy interpolators) are embedded by their documented
mathematical definitions where the claims depend on them, or taken as
function parameters where they do not.
-/

namespace Perturbations

/-- Python exceptions relevant to the embedded code paths. -/
inductive PyErr where
  | tecMapReadingError : PyErr
  | wrongAnalysisCenterNameError : PyErr
  | valueError : PyErr
  | indexError : PyErr
  | unboundLocalError : PyErr
  | runtimeError : PyErr
  | ionosphericMapFileNotFoundError : PyErr
  deriving DecidableEq, Repr

/-! ## Gregorian calendar (embedding of the PreciseDateTime date arithmetic
used by the two filename generators). -/

/-- Gregorian leap-year test. -/
def isLeap (y : Nat) : Bool :=
  (y % 4 == 0 && y % 100 != 0) || (y % 400 == 0)

/-- Number of days of month m (1-12) in year y. -/
def daysInMonth (y m : Nat) : Nat :=
  if m = 2 then (if isLeap y then 29 else 28)
  else if m = 4 ∨ m = 6 ∨ m = 9 ∨ m = 11 then 30
  else 31

/-- Days in the months of year y strictly before month m. -/
def daysBeforeMonth (y m : Nat) : Nat :=
  ((List.range m).map (fun k => if 1 ≤ k then daysInMonth y k else 0)).sum

/-- Days in the years strictly before year y (proleptic Gregorian, year 1 onward). -/
def daysBeforeYear (y : Nat) : Int :=
  365 * ((y : Int) - 1) + ((y - 1 : Nat) / 4 : Nat) - ((y - 1 : Nat) / 100 : Nat)
    + ((y - 1 : Nat) / 400 : Nat)

/-- A calendar date. -/
structure Date where
  year : Nat
  month : Nat
  day : Nat
  deriving DecidableEq, Repr

/-- Valid Gregorian date, year at least 2 so that the previous day exists. -/
def Date.valid (d : Date) : Prop :=
  2 ≤ d.year ∧ 1 ≤ d.month ∧ d.month ≤ 12 ∧ 1 ≤ d.day ∧ d.day ≤ daysInMonth d.year d.month

instance (d : Date) : Decidable d.valid := by
  unfold Date.valid; infer_instance

/-- Absolute day number of a date (rata die style, day count from the
proleptic year 1). -/
def rataDie (d : Date) : Int :=
  daysBeforeYear d.year + daysBeforeMonth d.year d.month + ((d.day : Int) - 1)

/-- Day of the year of a date (1 for January 1st); embedding of
PreciseDateTime.day_of_the_year. -/
def dayOfYear (d : Date) : Nat :=
  daysBeforeMonth d.year d.month + d.day

/-- The calendar day after the given one (embedding of adding 86400 seconds
to a midnight PreciseDateTime). -/
def nextDay (d : Date) : Date :=
  if d.day < daysInMonth d.year d.month then ⟨d.year, d.month, d.day + 1⟩
  else if d.month < 12 then ⟨d.year, d.month + 1, 1⟩
  else ⟨d.year + 1, 1, 1⟩

/-- The calendar day before the given one (embedding of subtracting 86400
seconds from a midnight PreciseDateTime). -/
def prevDay (d : Date) : Date :=
  if 1 < d.day then ⟨d.year, d.month, d.day - 1⟩
  else if 1 < d.month then ⟨d.year, d.month - 1, daysInMonth d.year (d.month - 1)⟩
  else ⟨d.year - 1, 12, 31⟩

/-! ## String utilities (embedding of the Python string operations the
parsers rely on). -/

/-- Whether the first character list is a prefix of the second. -/
def startsWithL : List Char → List Char → Bool
  | [], _ => true
  | _ :: _, [] => false
  | c :: cs, d :: ds => c == d && startsWithL cs ds

/-- Whether pat occurs as a contiguous run inside the character list. -/
def containsSub (pat : List Char) : List Char → Bool
  | [] => pat.isEmpty
  | c :: t => startsWithL pat (c :: t) || containsSub pat t

/-- Embedding of the Python substring test, pat in line. -/
def strContains (s pat : String) : Bool :=
  containsSub pat.data s.data

/-- Token accumulator for whitespace splitting. -/
def splitWsGo : List Char → List Char → List String
  | [], acc => if acc.isEmpty then [] else [⟨acc.reverse⟩]
  | c :: t, acc =>
    if c.isWhitespace then
      (if acc.isEmpty then splitWsGo t [] else ⟨acc.reverse⟩ :: splitWsGo t [])
    else splitWsGo t (c :: acc)

/-- Embedding of Python str.split() with no argument: whitespace-delimited
nonempty tokens. -/
def pySplitWs (s : String) : List String :=
  splitWsGo s.data []

/-- Value of a list of decimal digit characters. -/
def digitsToNat (cs : List Char) : Nat :=
  cs.foldl (fun a c => 10 * a + (c.toNat - 48)) 0

/-- Embedding of Python float(token) on the decimal literals appearing in
the map files: optional sign, then digits with an optional fractional part
(exponent notation never occurs in these files); anything else fails. -/
def parseFloat (s : String) : Option ℚ :=
  let cs := s.data
  let signed := cs ≠ [] ∧ (cs.headD ' ' = '-' ∨ cs.headD ' ' = '+')
  let body := if signed then cs.tail else cs
  let intPart := body.takeWhile Char.isDigit
  let rest := body.dropWhile Char.isDigit
  let value : Option ℚ :=
    if rest = [] then
      if intPart ≠ [] then some (digitsToNat intPart : ℚ) else none
    else if rest.headD ' ' = '.' ∧ (rest.tail).all Char.isDigit ∧
        (intPart ≠ [] ∨ rest.tail ≠ []) then
      some ((digitsToNat intPart : ℚ) +
        (digitsToNat rest.tail : ℚ) / 10 ^ (rest.tail).length)
    else none
  value.map (fun v => if cs.headD ' ' = '-' then -v else v)

/-- Embedding of np.fromstring(s, sep=" ") on well-formed numeric text: all
whitespace-separated numeric tokens of the string. -/
def parseNumbers (s : String) : List ℚ :=
  (pySplitWs s).filterMap parseFloat

/-- Maximal runs of decimal digits of a string, as numbers; embedding of
re.findall applied to one-or-more-digit patterns. -/
def digitRuns (s : String) : List Nat :=
  (pySplitWs ⟨s.data.map (fun c => if c.isDigit then c else ' ')⟩).map
    (fun t => digitsToNat t.data)

/-- Indices of the lines containing a marker string; embedding of the
enumerate-and-filter list comprehensions of the IONEX parser. -/
def markerIdxs (content : List String) (pat : String) : List Nat :=
  (List.range content.length).filter (fun i => strContains (content.getD i "") pat)

/-- Python slice content[a+1 : b] for 0 ≤ a+1 ≤ b (the only shape used by
the section segmentation). -/
def sliceBetween (content : List α) (a b : Nat) : List α :=
  (content.drop (a + 1)).take (b - (a + 1))

/-- Embedding of more_itertools.pairwise. -/
def pairwiseL (l : List Nat) : List (Nat × Nat) :=
  l.zip l.tail

/-! ## IONEX TEC map parsing (embedding of ionosphere.py
IonosphericDelayEstimator._tec_map_parsing and read_ionosphere_map_file). -/

/-- Timestamp extracted from an EPOCH OF CURRENT MAP line. -/
structure TecEpoch where
  year : Nat
  month : Nat
  day : Nat
  hour : Nat
  minute : Nat
  deriving DecidableEq, Repr

/-- Embedding of _epoch_timestamp_formatter: the first five digit runs of
the epoch line become the timestamp fields (the Python function renders
them as the string "{y}-{m:02}-{d:02} {h:02}:{mi:02}", which
read_ionosphere_map_file later re-parses; the fields themselves carry the
same information); fewer than five digit runs is the embedded IndexError. -/
def epochTimestampFormatter (s : String) : Except PyErr TecEpoch :=
  match digitRuns s with
  | y :: mo :: d :: h :: mi :: _ => .ok ⟨y, mo, d, h, mi⟩
  | _ => .error .indexError

/-- Embedding of np.vstack on a list of parsed rows: fails (ValueError) on
an empty list or on rows of unequal length. -/
def pyVstack (rows : List (List ℚ)) : Except PyErr (List (List ℚ)) :=
  match rows with
  | [] => .error .valueError
  | r :: rs => if rs.all (fun x => x.length = r.length) then .ok (r :: rs)
    else .error .valueError

/-- Data grid of one TEC map section: lines without the epoch marker are
segmented on the LAT/LON1/LON2/DLON/H markers, each segment is joined and
numerically parsed, the rows are stacked, and the whole grid is scaled by
10^exponent. -/
def tecSectionData (exponentFactor : Int) (sec : List String) :
    Except PyErr (List (List ℚ)) :=
  let sectionData := sec.filter (fun l => ¬ strContains l "EPOCH OF CURRENT MAP")
  let subsectionIds := markerIdxs sectionData "LAT/LON1/LON2/DLON/H" ++ [sectionData.length]
  let dataSubsections := (pairwiseL subsectionIds).map
    (fun p => parseNumbers (String.join (sliceBetween sectionData p.1 p.2)))
  (pyVstack dataSubsections).map
    (fun g => g.map (fun row => row.map (fun v => v * (10 : ℚ) ^ exponentFactor)))

/-- Embedding of IonosphericDelayEstimator._tec_map_parsing: isolate the
START/END OF TEC MAP sections, extract one timestamp per epoch line and one
scaled data grid per section; raises TECMapReadingError when the numbers of
start and end markers differ. -/
def tecMapParsing (content : List String) (exponentFactor : Int) :
    Except PyErr (List TecEpoch × List (List (List ℚ))) :=
  let tecStartId := markerIdxs content "START OF TEC MAP"
  let tecEndId := markerIdxs content "END OF TEC MAP"
  if tecStartId.length = tecEndId.length then
    let tecSectionsBoundaries := tecStartId.zip tecEndId
    let tecSections := tecSectionsBoundaries.map (fun b => sliceBetween content b.1 b.2)
    let epochLines := tecSections.flatMap
      (fun sec => sec.filter (fun l => strContains l "EPOCH OF CURRENT MAP"))
    do
      let tecTimestamps ← epochLines.mapM epochTimestampFormatter
      let tecData ← tecSections.mapM (tecSectionData exponentFactor)
      pure (tecTimestamps, tecData)
  else .error .tecMapReadingError

/-- The first whitespace token of each line containing the given marker,
numerically parsed; Python evaluates the whole comprehension, so any
malformed matching line poisons the extraction. -/
def extractHeaderValues (content : List String) (pat : String) : Option (List ℚ) :=
  (content.filter (fun l => strContains l pat)).mapM
    (fun l => (pySplitWs l).head? >>= parseFloat)

/-- Header scalar extraction guarded by try/except: the first matching
value times 1000 (km to m), or the default with a warning on any failure.
Embedding of the HGT1 and BASE RADIUS blocks of read_ionosphere_map_file. -/
def extractOrDefault (content : List String) (pat : String) (deflt : ℚ) :
    ℚ × Bool :=
  match extractHeaderValues content pat with
  | some (x :: _) => (x * 1000, false)
  | _ => (deflt, true)

/-- Unguarded EXPONENT header extraction of read_ionosphere_map_file: an
empty match list is the embedded IndexError, a malformed matching line the
embedded ValueError. -/
def extractExponent (content : List String) : Except PyErr ℚ :=
  match extractHeaderValues content "EXPONENT" with
  | some (x :: _) => .ok x
  | some [] => .error .indexError
  | none => .error .valueError

/-- Default ionosphere height, metres (ionosphere.py DEFAULT_IONOSPHERE_HEIGHT). -/
def DEFAULT_IONOSPHERE_HEIGHT : ℚ := 450000

/-- Default Earth radius, metres (ionosphere.py DEFAULT_EARTH_RADIUS). -/
def DEFAULT_EARTH_RADIUS : ℚ := 6371000

/-- Latitude axis built by read_ionosphere_map_file: -87.5 to 87.5 step 2.5. -/
def tecMapLatAxis : List ℚ :=
  (List.range 71).map (fun i => -(175 : ℚ) / 2 + 5 / 2 * i)

/-- Longitude axis built by read_ionosphere_map_file: -180 to 180 step 5. -/
def tecMapLonAxis : List ℚ :=
  (List.range 73).map (fun i => -(180 : ℚ) + 5 * i)

/-- Result of reading an IONEX map file. -/
structure IonoMapData where
  ionosphereHeight : ℚ
  earthRadius : ℚ
  heightWarning : Bool
  radiusWarning : Bool
  exponent : ℚ
  timestamps : List TecEpoch
  tecData : List (List (List ℚ))
  latAxis : List ℚ
  lonAxis : List ℚ
  deriving DecidableEq, Repr

/-- Validity of the datetime.strptime re-parse that
read_ionosphere_map_file applies to each formatted timestamp with format
"%Y-%m-%d %H:%M": the formatter writes the year unpadded and the other
fields zero-padded to width two; strptime matches exactly four year digits
and at most two digits for each other field, then constructs a datetime,
which demands a month in 1..12, a day valid for that month and year, an
hour below 24 and a minute below 60. Fields of three or more digits
already fail the regular-expression match, and are excluded by the same
range bounds. -/
def strptimeValid (e : TecEpoch) : Bool :=
  1000 ≤ e.year && e.year ≤ 9999 && 1 ≤ e.month && e.month ≤ 12 &&
    1 ≤ e.day && e.day ≤ daysInMonth e.year e.month && e.hour ≤ 23 && e.minute ≤ 59

/-- The strptime re-parse of one formatted timestamp: the timestamp itself
when its fields form a valid datetime, the embedded ValueError otherwise. -/
def strptimeEpoch (e : TecEpoch) : Except PyErr TecEpoch :=
  if strptimeValid e then .ok e else .error .valueError

/-- Embedding of read_ionosphere_map_file after the file has been read into
lines: height and radius extraction with warning-and-default fallback,
unguarded exponent extraction, TEC map parsing, the strptime re-parse of
every parsed timestamp (ValueError on any out-of-range epoch field), the
flip of each grid to the ascending latitude axis, and the fixed lat/lon
axes. The IONEX EXPONENT value is integral, so its scaling power is its
numerator. -/
def readIonosphereMapFile (content : List String) : Except PyErr IonoMapData := do
  let height := extractOrDefault content "HGT1" DEFAULT_IONOSPHERE_HEIGHT
  let radius := extractOrDefault content "BASE RADIUS" DEFAULT_EARTH_RADIUS
  let exponent ← extractExponent content
  let parsed ← tecMapParsing content exponent.num
  let timestamps ← parsed.1.mapM strptimeEpoch
  pure ⟨height.1, radius.1, height.2, radius.2, exponent, timestamps,
    parsed.2.map List.reverse, tecMapLatAxis, tecMapLonAxis⟩

/-! ## Timestamps and decimal string formatting (embedding of the Python
f-string zero padding used by both filename generators). -/

/-- An acquisition timestamp: calendar date plus time of day (embedding of
the PreciseDateTime fields the generators consume). -/
structure DateTime where
  date : Date
  hour : Nat
  minute : Nat
  second : Nat
  deriving DecidableEq, Repr

/-- Python f-string {n:02} formatting. -/
def pad2 (n : Nat) : String :=
  if n < 10 then "0" ++ Nat.repr n else Nat.repr n

/-- Python f-string {n:03} formatting. -/
def pad3 (n : Nat) : String :=
  if n < 10 then "00" ++ Nat.repr n else if n < 100 then "0" ++ Nat.repr n else Nat.repr n

/-! ## Troposphere: VMF map filename generation
(embedding of troposphere.py, generate_tropospheric_map_name_for_vmf_data). -/

/-- Tropospheric map data type (troposphere.py TroposphericMapType). -/
inductive TroposphericMapType where
  | GRAD | LHG | RAYTR | V3GR | VMF1 | VMF3 | VMF3o
  deriving DecidableEq, Repr

/-- Enum member name, as Python map_type.name. -/
def TroposphericMapType.pyName : TroposphericMapType → String
  | .GRAD => "GRAD"
  | .LHG => "LHG"
  | .RAYTR => "RAYTR"
  | .V3GR => "V3GR"
  | .VMF1 => "VMF1"
  | .VMF3 => "VMF3"
  | .VMF3o => "VMF3o"

/-- The four recording hours of a day, troposphere.py time_ids. -/
def timeIds : List Nat := [0, 6, 12, 18]

/-- Embedding of np.where([acq_time.hour_of_day >= t for t in time_ids])[0][-1]:
the last index whose recording hour is not after the acquisition hour. -/
def closestRecordedHourId (hour : Nat) : Nat :=
  ((List.range 4).filter (fun i => timeIds.getD i 0 ≤ hour)).getLastD 0

/-- Python list indexing with negative wrap-around, as in time_ids[id] where
id can be -1. -/
def pyIdx (l : List Nat) (i : Int) : Nat :=
  if i < 0 then l.getD ((l.length : Int) + i).toNat 0 else l.getD i.toNat 0

/-- A map epoch: calendar date plus recording hour. -/
abbrev Epoch := Date × Nat

/-- Filename assembled for one epoch: base_name + f"{y}" + f"{m:02}" +
f"{d:02}" + f".H{h:02}". -/
def vmfEpochName (mt : TroposphericMapType) (e : Epoch) : String :=
  mt.pyName ++ "_" ++ Nat.repr e.1.year ++ pad2 e.1.month ++ pad2 e.1.day ++ ".H" ++ pad2 e.2

/-- Absolute hour count of an epoch, used to state the bracketing property. -/
def epochAbsHours (e : Epoch) : Int :=
  24 * rataDie e.1 + (e.2 : Int)

/-- Embedding of troposphere.py generate_tropospheric_map_name_for_vmf_data:
the four filenames and the four epochs bracketing the acquisition time. -/
def generateTroposphericMapNameForVmfData (acq : DateTime) (mt : TroposphericMapType) :
    List String × List Epoch :=
  let baseDate := acq.date
  let prevD := prevDay baseDate
  let nextD := nextDay baseDate
  let cid := closestRecordedHourId acq.hour
  let closestAcq : Epoch := (baseDate, timeIds.getD cid 0)
  let prevId : Int := (cid : Int) - 1
  let nextId := (cid + 1) % 4
  let next2Id := (cid + 2) % 4
  let previousAcq : Epoch :=
    if cid = 0 then (prevD, pyIdx timeIds prevId) else (baseDate, pyIdx timeIds prevId)
  let nextAcq : Epoch :=
    if cid = 3 then (nextD, timeIds.getD nextId 0) else (baseDate, timeIds.getD nextId 0)
  let next2Acq : Epoch :=
    if cid = 2 ∨ cid = 3 then (nextD, timeIds.getD next2Id 0) else (baseDate, timeIds.getD next2Id 0)
  let epochs := [previousAcq, closestAcq, nextAcq, next2Acq]
  (epochs.map (vmfEpochName mt), epochs)

/-! ## Ionosphere: IONEX map filename generation
(embedding of ionosphere.py, generate_ionospheric_map_filename). -/

/-- Ionospheric analysis centers (ionosphere.py IonosphericAnalysisCenters). -/
inductive IonosphericAnalysisCenters where
  | COD | COR | EHR | ESA | ESR | IGR | IGS | JPL | UPC | UHR | UPR | UQR
  deriving DecidableEq, Repr

/-- Enum member name, as Python center.name. -/
def IonosphericAnalysisCenters.pyName : IonosphericAnalysisCenters → String
  | .COD => "COD"
  | .COR => "COR"
  | .EHR => "EHR"
  | .ESA => "ESA"
  | .ESR => "ESR"
  | .IGR => "IGR"
  | .IGS => "IGS"
  | .JPL => "JPL"
  | .UPC => "UPC"
  | .UHR => "UHR"
  | .UPR => "UPR"
  | .UQR => "UQR"

/-- TEC map solution type with its format code (ionosphere.py TECMapSolutionType). -/
inductive TECMapSolutionType where
  | FINAL | RAPID
  deriving DecidableEq, Repr

/-- Solution type value string. -/
def TECMapSolutionType.value : TECMapSolutionType → String
  | .FINAL => "FIN"
  | .RAPID => "RAP"

/-- TEC map time resolution with its format code (ionosphere.py TECMapTimeResolution). -/
inductive TECMapTimeResolution where
  | HALF_HOUR | HOUR | TWO_HOURS
  deriving DecidableEq, Repr

/-- Time resolution value string. -/
def TECMapTimeResolution.value : TECMapTimeResolution → String
  | .HALF_HOUR => "30M"
  | .HOUR => "01H"
  | .TWO_HOURS => "02H"

/-- Embedding of Python str.lower (ASCII inputs only in this code base). -/
def pyLower (s : String) : String := ⟨s.data.map Char.toLower⟩

/-- Embedding of Python str.upper (ASCII inputs only in this code base). -/
def pyUpper (s : String) : String := ⟨s.data.map Char.toUpper⟩

/-- Modelled from the spec: date_to_gps_week of the external arepytools timing
library, absent from src/; the GPS week is the whole number of weeks elapsed
since the GPS epoch 1980-01-06. -/
def dateToGpsWeek (d : Date) : Int :=
  (rataDie d - rataDie ⟨1980, 1, 6⟩) / 7

/-- Modelled from the spec: GPS_WEEK_REFERENCE, the fixed reference GPS week
splitting the two CDDIS naming eras, defined in the atmospheric package
init file absent from src/; the source's comments place the split between
GPS week 2237 (old format) and GPS week 2238 (new format). -/
def GPS_WEEK_REFERENCE : Int := 2238

/-- Embedding of ionosphere.py generate_ionospheric_map_filename. -/
def generateIonosphericMapFilename (acq : DateTime) (center : IonosphericAnalysisCenters)
    (solutionType : TECMapSolutionType) (timeResolution : TECMapTimeResolution) : String :=
  if dateToGpsWeek acq.date < GPS_WEEK_REFERENCE then
    pyLower center.pyName ++ "g" ++ pad3 (dayOfYear acq.date) ++ "0." ++
      pad2 (acq.date.year % 100) ++ "i"
  else
    center.pyName ++ "0OPS" ++ solutionType.value ++ "_" ++ Nat.repr acq.date.year ++
      pad3 (dayOfYear acq.date) ++ "0000" ++ "_01D" ++ "_" ++ timeResolution.value ++
      "_GIM" ++ ".INX"

/-- Naming scheme for the era before the reference GPS week, written from the
spec sentence: {center lowercase}g{day_of_year:03}0.{year%100:02}i. -/
def specOldEraName (center : IonosphericAnalysisCenters) (d : Date) : String :=
  pyLower center.pyName ++ "g" ++ pad3 (dayOfYear d) ++ "0." ++ pad2 (d.year % 100) ++ "i"

/-- Naming scheme for the era at/after the reference GPS week, written from
the spec sentence:
{CENTER}0OPS{solution}_{year}{day_of_year:03}0000_01D_{resolution}_GIM.INX. -/
def specNewEraName (center : IonosphericAnalysisCenters) (sol : TECMapSolutionType)
    (res : TECMapTimeResolution) (d : Date) : String :=
  center.pyName ++ "0OPS" ++ sol.value ++ "_" ++ Nat.repr d.year ++ pad3 (dayOfYear d) ++
    "0000_01D_" ++ res.value ++ "_GIM.INX"

/-- Absolute hour count of the acquisition time (truncated to whole hours,
the precision the file selection works at). -/
def acqAbsHours (acq : DateTime) : Int :=
  24 * rataDie acq.date + (acq.hour : Int)

/-- Absolute hour count of the nearest-or-earlier 6-hour recording epoch,
written from the spec sentence. -/
def nearestEpochAbsHours (acq : DateTime) : Int :=
  24 * rataDie acq.date + 6 * ((acq.hour : Int) / 6)

/-! ## Bracketing-epoch selection and spatial interpolation (embedding of
ionosphere.py estimate_delay, lines selecting the two closest timestamps,
and of the scipy RegularGridInterpolator linear method it calls). -/

/-- Index of the first minimum of a list; embedding of the documented
behaviour of np.argmin (first occurrence on ties). -/
def argminList : List ℚ → Nat
  | [] => 0
  | [_] => 0
  | x :: y :: xs =>
    let j := argminList (y :: xs)
    if x ≤ (y :: xs).getD j 0 then 0 else j + 1

/-- Clamp of a Python slice endpoint to a list of length n. -/
def pySliceNorm (n : Nat) (i : Int) : Nat :=
  if i < 0 then (max 0 ((n : Int) + i)).toNat else (min i (n : Int)).toNat

/-- Embedding of the Python slice l[a:b] with possibly negative endpoints. -/
def pySlice (l : List α) (a b : Int) : List α :=
  (l.drop (pySliceNorm l.length a)).take (pySliceNorm l.length b - pySliceNorm l.length a)

/-- Embedding of the closest-timestamp bracket selection of estimate_delay:
the index of the recording timestamp closest to the acquisition time,
shifted back by one when that timestamp is later than the acquisition time,
then a two-element Python slice from it. -/
def selectBracketIdx (timestamps : List ℚ) (acq : ℚ) : Int :=
  let closestTimestampId := argminList (timestamps.map (fun t => |acq - t|))
  if 0 < timestamps.getD closestTimestampId 0 - acq then (closestTimestampId : Int) - 1
  else (closestTimestampId : Int)

/-- The two-element timestamp slice selected by estimate_delay. -/
def selectBracket (timestamps : List ℚ) (acq : ℚ) : List ℚ :=
  pySlice timestamps (selectBracketIdx timestamps acq) (selectBracketIdx timestamps acq + 2)

/-- Number of axis points strictly below x; embedding of
np.searchsorted(axis, x) with the default left side on a sorted axis. -/
def countLt (axis : List ℚ) (x : ℚ) : Nat :=
  (axis.filter (fun a => a < x)).length

/-- Lower cell index used by the scipy regular-grid linear interpolator:
searchsorted minus one, clipped to [0, length-2]; none when x is outside
the axis range (scipy bounds_error). -/
def findCell (axis : List ℚ) (x : ℚ) : Option Nat :=
  match axis.head?, axis.getLast? with
  | some lo, some hi =>
    if x < lo ∨ hi < x then none
    else some (min (axis.length - 2) (max (countLt axis x) 1 - 1))
  | _, _ => none

/-- Embedding of scipy RegularGridInterpolator((lat_axis, lon_axis), grid)
evaluated at one point with the default linear method: bilinear combination
of the four surrounding grid nodes, out-of-bounds points raising the scipy
ValueError. -/
def bilinear (latAxis lonAxis : List ℚ) (grid : List (List ℚ)) (lat lon : ℚ) :
    Except PyErr ℚ :=
  match findCell latAxis lat, findCell lonAxis lon with
  | some i, some j =>
    let la0 := latAxis.getD i 0
    let la1 := latAxis.getD (i + 1) 0
    let lo0 := lonAxis.getD j 0
    let lo1 := lonAxis.getD (j + 1) 0
    let ty := (lat - la0) / (la1 - la0)
    let tx := (lon - lo0) / (lo1 - lo0)
    let v00 := (grid.getD i []).getD j 0
    let v01 := (grid.getD i []).getD (j + 1) 0
    let v10 := (grid.getD (i + 1) []).getD j 0
    let v11 := (grid.getD (i + 1) []).getD (j + 1) 0
    .ok ((1 - ty) * ((1 - tx) * v00 + tx * v01) + ty * ((1 - tx) * v10 + tx * v11))
  | _, _ => .error .valueError

/-- The linear time-interpolation combination of estimate_delay: tec
values of the two bracketing epochs weighted by the opposite time offsets. -/
def ionoTimeInterp (delta0 delta1 v1 v2 : ℚ) : ℚ :=
  |delta1| / (delta1 - delta0) * v1 + |delta0| / (delta1 - delta0) * v2

/-! ## Ionospheric delay estimator (embedding of ionosphere.py
IonosphericDelayEstimator and compute_delay). -/

/-- Mapping-function method selector (ionosphere.py
TECMappingFunctionIncidenceAngleMethod). -/
inductive TECMappingFunctionIncidenceAngleMethod where
  | IPP | GROUND | GROUND_CONVERTED
  deriving DecidableEq, Repr

/-- Uppercased analysis-center code lookup; embedding of the Python Enum
item access IonosphericAnalysisCenters[name]. -/
def centerFromName : String → Option IonosphericAnalysisCenters
  | "COD" => some .COD
  | "COR" => some .COR
  | "EHR" => some .EHR
  | "ESA" => some .ESA
  | "ESR" => some .ESR
  | "IGR" => some .IGR
  | "IGS" => some .IGS
  | "JPL" => some .JPL
  | "UPC" => some .UPC
  | "UHR" => some .UHR
  | "UPR" => some .UPR
  | "UQR" => some .UQR
  | _ => none

/-- The ionospheric delay estimator state set up by __init__. -/
structure IonosphericDelayEstimator where
  acquisitionTime : DateTime
  analysisCenter : IonosphericAnalysisCenters
  carrierFreq : ℚ
  scalingFactor : ℚ
  tecMappingMethod : TECMappingFunctionIncidenceAngleMethod
  solutionType : TECMapSolutionType
  timeResolution : TECMapTimeResolution
  ionosphereHeight : ℚ
  earthRadius : ℚ
  mapFolder : Option String
  deriving DecidableEq, Repr

/-- Embedding of IonosphericDelayEstimator.__init__ with a string analysis
center: the center string is validated (uppercased) against the enumerated
codes and an unknown code is the WrongAnalysisCenterNameError; no other
input is inspected and no file is touched. -/
def ionosphericEstimatorInit (acquisitionTime : DateTime) (analysisCenter : String)
    (fcHz : ℚ) (scalingFactor : ℚ) (tecMappingMethod : TECMappingFunctionIncidenceAngleMethod)
    (solutionType : TECMapSolutionType) (timeResolution : TECMapTimeResolution)
    (mapFolder : Option String) : Except PyErr IonosphericDelayEstimator :=
  match centerFromName (pyUpper analysisCenter) with
  | some c => .ok ⟨acquisitionTime, c, fcHz, scalingFactor, tecMappingMethod,
      solutionType, timeResolution, DEFAULT_IONOSPHERE_HEIGHT, DEFAULT_EARTH_RADIUS, mapFolder⟩
  | none => .error .wrongAnalysisCenterNameError

/-- Per-target temporally interpolated TEC of estimate_delay: bracket
selection, per-epoch Earth-rotation longitude shift, bilinear spatial
interpolation on each bracketing grid, then the linear time interpolation.
The pierce-point latitudes and longitudes are the outputs of the geometry
adapter (_detect_pierce_point), taken as inputs here. -/
def tecInterpolatedAt (acq : ℚ) (timestamps : List ℚ) (tecData : List (List (List ℚ)))
    (latAxis lonAxis : List ℚ) (ippLat ippLon : List ℚ) : Except PyErr (List ℚ) :=
  let k := selectBracketIdx timestamps acq
  let timestampsSelected := pySlice timestamps k (k + 2)
  let tecDataSelected := pySlice tecData k (k + 2)
  match timestampsSelected, tecDataSelected with
  | [t0, t1], [g0, g1] =>
    let delta0 := (t0 - acq) / 3600
    let delta1 := (t1 - acq) / 3600
    (List.range ippLat.length).mapM (fun p => do
      let v1 ← bilinear latAxis lonAxis g0 (ippLat.getD p 0)
        (ippLon.getD p 0 + 360 / 24 * delta0)
      let v2 ← bilinear latAxis lonAxis g1 (ippLat.getD p 0)
        (ippLon.getD p 0 + 360 / 24 * delta1)
      pure (ionoTimeInterp delta0 delta1 v1 v2))
  | _, _ => .error .indexError

/-- Embedding of the numerical core of IonosphericDelayEstimator
estimate_delay: the per-target delays computed from the parsed map data,
the pierce-point coordinates and the mapping-function values produced by
the geometry adapter. -/
def estimateDelayCore (acq : ℚ) (fcHz scalingFactor : ℚ) (timestamps : List ℚ)
    (tecData : List (List (List ℚ))) (latAxis lonAxis : List ℚ)
    (ippLat ippLon mappingFunction : List ℚ) : Except PyErr (List ℚ) :=
  let k := selectBracketIdx timestamps acq
  let timestampsSelected := pySlice timestamps k (k + 2)
  let tecDataSelected := pySlice tecData k (k + 2)
  match timestampsSelected, tecDataSelected with
  | [t0, t1], [g0, g1] =>
    let delta0 := (t0 - acq) / 3600
    let delta1 := (t1 - acq) / 3600
    (List.range ippLat.length).mapM (fun p => do
      let v1 ← bilinear latAxis lonAxis g0 (ippLat.getD p 0)
        (ippLon.getD p 0 + 360 / 24 * delta0)
      let v2 ← bilinear latAxis lonAxis g1 (ippLat.getD p 0)
        (ippLon.getD p 0 + 360 / 24 * delta1)
      pure (403 * 10 ^ 15 / fcHz ^ 2 * ionoTimeInterp delta0 delta1 v1 v2 *
        mappingFunction.getD p 0 * scalingFactor))
  | _, _ => .error .indexError

/-- Seconds-count of an acquisition timestamp. -/
def dateTimeToSec (t : DateTime) : ℚ :=
  86400 * rataDie t.date + 3600 * t.hour + 60 * t.minute + t.second

/-- Seconds-count of a parsed TEC map epoch. -/
def tecEpochToSec (e : TecEpoch) : ℚ :=
  86400 * rataDie ⟨e.year, e.month, e.day⟩ + 3600 * e.hour + 60 * e.minute

/-- Embedding of IonosphericDelayEstimator.estimate_delay: filename
generation, file reading through the oracle readFile, IONEX parsing and the
numerical core; the geometry-adapter outputs (pierce points and mapping
function) are inputs. -/
def ionosphericEstimateDelay (est : IonosphericDelayEstimator)
    (readFile : String → Option (List String)) (ippLat ippLon mappingFunction : List ℚ) :
    Except PyErr (List ℚ) :=
  let filename := generateIonosphericMapFilename est.acquisitionTime est.analysisCenter
    est.solutionType est.timeResolution
  match est.mapFolder with
  | none => .error .valueError
  | some folder =>
    match readFile (folder ++ "/" ++ filename) with
    | none => .error .ionosphericMapFileNotFoundError
    | some content => do
      let mapData ← readIonosphereMapFile content
      estimateDelayCore (dateTimeToSec est.acquisitionTime) est.carrierFreq
        est.scalingFactor (mapData.timestamps.map tecEpochToSec) mapData.tecData
        mapData.latAxis mapData.lonAxis ippLat ippLon mappingFunction

/-- Embedding of ionosphere.py compute_delay: estimator construction from
the analysis-center string followed by estimate_delay. -/
def ionosphericComputeDelay (readFile : String → Option (List String))
    (acquisitionTime : DateTime) (analysisCenter : String) (fcHz : ℚ)
    (mapFolder : Option String) (delayScalingFactor : ℚ)
    (tecMappingMethod : TECMappingFunctionIncidenceAngleMethod)
    (tecSolutionType : TECMapSolutionType) (tecTimeResolution : TECMapTimeResolution)
    (ippLat ippLon mappingFunction : List ℚ) : Except PyErr (List ℚ) := do
  let est ← ionosphericEstimatorInit acquisitionTime analysisCenter fcHz
    delayScalingFactor tecMappingMethod tecSolutionType tecTimeResolution mapFolder
  ionosphericEstimateDelay est readFile ippLat ippLon mappingFunction

/-! ## Tropospheric delay estimator prologue (embedding of troposphere.py
TroposphericDelayEstimator.estimate_delay and compute_delay). -/

/-- Tropospheric map data model (troposphere.py TroposphericMapModel). -/
inductive TroposphericMapModel where
  | DORIS | GNSS | GRID | SLR | VLBI
  deriving DecidableEq, Repr

/-- Tropospheric map data version (troposphere.py TroposphericMapVersion). -/
inductive TroposphericMapVersion where
  | EI | FC | OP | RADIATE | TRP
  deriving DecidableEq, Repr

/-- Tropospheric map grid resolution (troposphere.py TroposphericGRIDResolution). -/
inductive TroposphericGRIDResolution where
  | FINE | MEDIUM | COARSE
  deriving DecidableEq, Repr

/-- Tropospheric grid interpolation method (troposphere.py
TroposphericGridInterpolationMethod). -/
inductive TroposphericGridInterpolationMethod where
  | LINEAR | NEAREST | CUBIC
  deriving DecidableEq, Repr

/-- The tropospheric delay estimator state set up by __init__. -/
structure TroposphericDelayEstimator where
  acquisitionTime : DateTime
  interpMethod : TroposphericGridInterpolationMethod
  mapModel : TroposphericMapModel
  mapType : TroposphericMapType
  mapVersion : TroposphericMapVersion
  mapGridRes : TroposphericGRIDResolution
  mapFolder : Option String
  deriving DecidableEq, Repr

/-- The remainder of TroposphericDelayEstimator.estimate_delay after the
map files have been resolved: file reading, filtering, interpolation,
mapping-function generation and the height corrections. It consumes the
resolved file paths and epochs; the claims settled here do not depend on
its body, so it is a parameter. -/
abbrev TropoRest := List String → List Epoch → Except PyErr (List ℚ × List ℚ)

/-- Embedding of the prologue of TroposphericDelayEstimator.estimate_delay:
the four map names are generated, the file-path list is assigned only under
a non-None map folder, and the VMF3 branch then reads the paths variable;
with map_folder left None that read is the Python UnboundLocalError, and a
non-VMF3 map type is the unsupported-format RuntimeError. -/
def troposphericEstimateDelay (est : TroposphericDelayEstimator) (rest : TropoRest) :
    Except PyErr (List ℚ × List ℚ) :=
  let filesAndDates := generateTroposphericMapNameForVmfData est.acquisitionTime est.mapType
  let filepaths : Option (List String) :=
    est.mapFolder.map (fun folder => filesAndDates.1.map (fun f => folder ++ "/" ++ f))
  if est.mapType = .VMF3 then
    match filepaths with
    | none => .error .unboundLocalError
    | some fps => rest fps filesAndDates.2
  else .error .runtimeError

/-- Embedding of troposphere.py compute_delay: estimator construction with
the GRID model, VMF3 map type and OP version defaults, then estimate_delay. -/
def troposphericComputeDelay (acquisitionTime : DateTime) (mapFolder : Option String)
    (mapResolution : TroposphericGRIDResolution)
    (interpMethod : TroposphericGridInterpolationMethod) (rest : TropoRest) :
    Except PyErr (List ℚ × List ℚ) :=
  troposphericEstimateDelay
    ⟨acquisitionTime, interpMethod, .GRID, .VMF3, .OP, mapResolution, mapFolder⟩ rest

instance {ε α : Type} [DecidableEq ε] [DecidableEq α] : DecidableEq (Except ε α) := fun x y =>
  match x, y with
  | .error a, .error b =>
    if h : a = b then .isTrue (by rw [h]) else .isFalse (fun hc => h (Except.error.inj hc))
  | .ok a, .ok b =>
    if h : a = b then .isTrue (by rw [h]) else .isFalse (fun hc => h (Except.ok.inj hc))
  | .error _, .ok _ => .isFalse (fun hc => Except.noConfusion hc)
  | .ok _, .error _ => .isFalse (fun hc => Except.noConfusion hc)

theorem daysBeforeMonth_succ (y m : Nat) (h1 : 1 ≤ m) :
    daysBeforeMonth y (m + 1) = daysBeforeMonth y m + daysInMonth y m := by
  unfold daysBeforeMonth
  rw [List.range_succ, List.map_append, List.sum_append]
  simp [h1]

theorem isLeap_iff (y : Nat) :
    isLeap y = true ↔ ((y % 4 = 0 ∧ ¬ y % 100 = 0) ∨ y % 400 = 0) := by
  simp [isLeap]

theorem daysBeforeYear_succ (y : Nat) (h : 1 ≤ y) :
    daysBeforeYear (y + 1) = daysBeforeYear y + (if isLeap y then 366 else 365) := by
  unfold daysBeforeYear
  by_cases hb : isLeap y = true
  · rw [if_pos hb]
    rw [isLeap_iff] at hb
    simp only [Nat.add_sub_cancel]
    omega
  · rw [if_neg hb]
    rw [isLeap_iff] at hb
    simp only [Nat.add_sub_cancel]
    omega

theorem daysBeforeMonth_one (y : Nat) : daysBeforeMonth y 1 = 0 := by
  simp [daysBeforeMonth, List.range_succ]

theorem daysBeforeMonth_twelve (y : Nat) :
    daysBeforeMonth y 12 = if isLeap y then 335 else 334 := by
  by_cases hb : isLeap y = true <;>
    simp [daysBeforeMonth, daysInMonth, hb, List.range_succ]

theorem rataDie_nextDay (d : Date) (hv : d.valid) :
    rataDie (nextDay d) = rataDie d + 1 := by
  obtain ⟨hy, hm1, hm12, hd1, hd2⟩ := hv
  unfold nextDay
  by_cases h1 : d.day < daysInMonth d.year d.month
  · simp only [if_pos h1, rataDie]
    push_cast
    ring
  · have hde : d.day = daysInMonth d.year d.month := le_antisymm hd2 (not_lt.mp h1)
    rw [if_neg h1]
    by_cases h2 : d.month < 12
    · simp only [if_pos h2, rataDie]
      have : daysBeforeMonth d.year (d.month + 1)
          = daysBeforeMonth d.year d.month + daysInMonth d.year d.month :=
        daysBeforeMonth_succ d.year d.month hm1
      rw [this, hde]
      push_cast
      ring
    · have hm : d.month = 12 := le_antisymm hm12 (not_lt.mp h2)
      have h31 : daysInMonth d.year 12 = 31 := by simp [daysInMonth]
      simp only [if_neg h2, rataDie, daysBeforeMonth_one]
      rw [hde, hm, h31, daysBeforeMonth_twelve,
        daysBeforeYear_succ d.year (by omega)]
      by_cases hb : isLeap d.year = true <;> simp [hb] <;> push_cast <;> ring

theorem rataDie_prevDay (d : Date) (hv : d.valid) :
    rataDie (prevDay d) = rataDie d - 1 := by
  obtain ⟨hy, hm1, hm12, hd1, hd2⟩ := hv
  unfold prevDay
  by_cases h1 : 1 < d.day
  · simp only [if_pos h1, rataDie]
    push_cast
    omega
  · have hde : d.day = 1 := by omega
    rw [if_neg h1]
    by_cases h2 : 1 < d.month
    · simp only [if_pos h2, rataDie]
      have hstep : daysBeforeMonth d.year ((d.month - 1) + 1)
          = daysBeforeMonth d.year (d.month - 1) + daysInMonth d.year (d.month - 1) :=
        daysBeforeMonth_succ d.year (d.month - 1) (by omega)
      have hm : (d.month - 1) + 1 = d.month := by omega
      rw [hm] at hstep
      rw [hstep, hde]
      push_cast
      omega
    · have hm : d.month = 1 := by omega
      rw [if_neg h2]
      simp only [rataDie, hm, hde, daysBeforeMonth_one]
      rw [daysBeforeMonth_twelve]
      have hdy : daysBeforeYear d.year
          = daysBeforeYear (d.year - 1) + (if isLeap (d.year - 1) then 366 else 365) := by
        have hstep := daysBeforeYear_succ (d.year - 1) (by omega)
        rwa [show (d.year - 1) + 1 = d.year by omega] at hstep
      rw [hdy]
      by_cases hb : isLeap (d.year - 1) = true <;> simp [hb] <;> push_cast <;> ring

theorem closestRecordedHourId_eq (h : Nat) (hh : h ≤ 23) :
    closestRecordedHourId h = h / 6 := by
  interval_cases h <;> decide

/-- C2: generate_tropospheric_map_name_for_vmf_data at 2023-10-26 15:12:33
with map type VMF3 returns exactly the four fixture filenames and epochs; in
general, for every acquisition time it picks the nearest-or-earlier 6-hour
epoch E and returns the four epochs E-6h, E, E+6h, E+12h with matching
filenames, rolling across calendar-day boundaries. -/
theorem vmf_map_name_bracket_selection :
    (generateTroposphericMapNameForVmfData ⟨⟨2023, 10, 26⟩, 15, 12, 33⟩ .VMF3 =
      (["VMF3_20231026.H06", "VMF3_20231026.H12", "VMF3_20231026.H18", "VMF3_20231027.H00"],
       [(⟨2023, 10, 26⟩, 6), (⟨2023, 10, 26⟩, 12), (⟨2023, 10, 26⟩, 18), (⟨2023, 10, 27⟩, 0)]))
    ∧ ∀ (acq : DateTime) (mt : TroposphericMapType), acq.date.valid → acq.hour ≤ 23 →
      (generateTroposphericMapNameForVmfData acq mt).2.map epochAbsHours =
        [nearestEpochAbsHours acq - 6, nearestEpochAbsHours acq,
          nearestEpochAbsHours acq + 6, nearestEpochAbsHours acq + 12] ∧
      (generateTroposphericMapNameForVmfData acq mt).1 =
        (generateTroposphericMapNameForVmfData acq mt).2.map (vmfEpochName mt) ∧
      nearestEpochAbsHours acq ≤ acqAbsHours acq ∧
      acqAbsHours acq < nearestEpochAbsHours acq + 6 := by
  constructor
  · decide
  · intro acq mt hv hh
    have hprev : rataDie (prevDay acq.date) = rataDie acq.date - 1 := rataDie_prevDay _ hv
    have hnext : rataDie (nextDay acq.date) = rataDie acq.date + 1 := rataDie_nextDay _ hv
    have hcid : closestRecordedHourId acq.hour = acq.hour / 6 := closestRecordedHourId_eq _ hh
    refine ⟨?_, ?_, ?_, ?_⟩
    · rcases (by omega :
          acq.hour / 6 = 0 ∨ acq.hour / 6 = 1 ∨ acq.hour / 6 = 2 ∨ acq.hour / 6 = 3) with
        h6 | h6 | h6 | h6 <;>
      · simp only [generateTroposphericMapNameForVmfData, hcid, h6, pyIdx, timeIds,
          epochAbsHours, nearestEpochAbsHours, List.map_cons, List.map_nil]
        norm_num [hprev, hnext, h6, List.getD, show Int.toNat 0 = 0 from rfl,
          show Int.toNat 1 = 1 from rfl, show Int.toNat 2 = 2 from rfl,
          show Int.toNat 3 = 3 from rfl]
        omega
    · simp only [generateTroposphericMapNameForVmfData]
    · simp only [nearestEpochAbsHours, acqAbsHours]
      omega
    · simp only [nearestEpochAbsHours, acqAbsHours]
      omega

/-- Witness for the general bracket property of C2 at a concrete leap-year
day boundary (2024-03-01, 20h: the two later epochs roll into 2024-03-02). -/
theorem vmf_map_name_bracket_selection_witness :
    Date.valid ⟨2024, 3, 1⟩ ∧ (20 : Nat) ≤ 23 ∧
    (generateTroposphericMapNameForVmfData ⟨⟨2024, 3, 1⟩, 20, 15, 0⟩ .VMF3).2.map epochAbsHours =
      [nearestEpochAbsHours ⟨⟨2024, 3, 1⟩, 20, 15, 0⟩ - 6,
        nearestEpochAbsHours ⟨⟨2024, 3, 1⟩, 20, 15, 0⟩,
        nearestEpochAbsHours ⟨⟨2024, 3, 1⟩, 20, 15, 0⟩ + 6,
        nearestEpochAbsHours ⟨⟨2024, 3, 1⟩, 20, 15, 0⟩ + 12] :=
  ⟨by decide, by decide,
    (vmf_map_name_bracket_selection.2 ⟨⟨2024, 3, 1⟩, 20, 15, 0⟩ .VMF3
      (by decide) (by decide)).1⟩

/-- C3: generate_ionospheric_map_filename is a pure function of time,
provider, solution and resolution, split at the reference GPS week: before
it the name is the lowercase old-era format, at/after it the uppercase
new-era format; at 2018-10-26 with center COD it yields codg2990.18i and at
2023-10-26 with center COD (final solution, hourly resolution) it yields
COD0OPSFIN_20232990000_01D_01H_GIM.INX. -/
theorem ionospheric_map_filename_two_eras :
    generateIonosphericMapFilename ⟨⟨2018, 10, 26⟩, 15, 12, 33⟩ .COD .FINAL .HOUR
      = "codg2990.18i" ∧
    generateIonosphericMapFilename ⟨⟨2023, 10, 26⟩, 15, 12, 33⟩ .COD .FINAL .HOUR
      = "COD0OPSFIN_20232990000_01D_01H_GIM.INX" ∧
    ∀ (t : DateTime) (c : IonosphericAnalysisCenters) (s : TECMapSolutionType)
      (r : TECMapTimeResolution),
      (dateToGpsWeek t.date < GPS_WEEK_REFERENCE →
        generateIonosphericMapFilename t c s r = specOldEraName c t.date) ∧
      (GPS_WEEK_REFERENCE ≤ dateToGpsWeek t.date →
        generateIonosphericMapFilename t c s r = specNewEraName c s r t.date) := by
  refine ⟨by decide, by decide, fun t c s r => ⟨fun h => ?_, fun h => ?_⟩⟩
  · rw [generateIonosphericMapFilename, if_pos h, specOldEraName]
  · rw [generateIonosphericMapFilename, if_neg (not_lt.mpr h), specNewEraName]
    ext1
    simp [String.data_append]

/-- Witness for the era split of C3: the 2018 fixture date falls in the old
era and the 2023 fixture date in the new era. -/
theorem ionospheric_map_filename_two_eras_witness :
    (dateToGpsWeek ⟨2018, 10, 26⟩ < GPS_WEEK_REFERENCE ∧
      generateIonosphericMapFilename ⟨⟨2018, 10, 26⟩, 15, 12, 33⟩ .ESA .FINAL .HOUR
        = specOldEraName .ESA ⟨2018, 10, 26⟩) ∧
    (GPS_WEEK_REFERENCE ≤ dateToGpsWeek ⟨2023, 10, 26⟩ ∧
      generateIonosphericMapFilename ⟨⟨2023, 10, 26⟩, 15, 12, 33⟩ .ESA .RAPID .HALF_HOUR
        = specNewEraName .ESA .RAPID .HALF_HOUR ⟨2023, 10, 26⟩) :=
  ⟨⟨by decide,
    (ionospheric_map_filename_two_eras.2.2 ⟨⟨2018, 10, 26⟩, 15, 12, 33⟩ .ESA .FINAL .HOUR).1
      (by decide)⟩,
   ⟨by decide,
    (ionospheric_map_filename_two_eras.2.2 ⟨⟨2023, 10, 26⟩, 15, 12, 33⟩ .ESA .RAPID
      .HALF_HOUR).2 (by decide)⟩⟩

/-- C10: estimate_delay on a tropospheric estimator whose map folder was
left at the default None (and whose map type is VMF3) always fails with the
unbound-local error, whatever the rest of the computation would do; hence
the top-level tropospheric compute_delay with the default None map folder
never produces a delay. -/
theorem tropospheric_none_map_folder_unbound_local :
    (∀ (est : TroposphericDelayEstimator) (rest : TropoRest),
      est.mapFolder = none → est.mapType = .VMF3 →
      troposphericEstimateDelay est rest = .error .unboundLocalError) ∧
    (∀ (acq : DateTime) (res : TroposphericGRIDResolution)
      (im : TroposphericGridInterpolationMethod) (rest : TropoRest),
      troposphericComputeDelay acq none res im rest = .error .unboundLocalError) := by
  constructor
  · intro est rest hf ht
    simp [troposphericEstimateDelay, hf, ht]
  · intro acq res im rest
    simp [troposphericComputeDelay, troposphericEstimateDelay]

/-- Witness for C10 at a concrete estimator and continuation. -/
theorem tropospheric_none_map_folder_unbound_local_witness :
    (⟨⟨⟨2023, 10, 26⟩, 15, 12, 33⟩, .CUBIC, .GRID, .VMF3, .OP, .FINE, none⟩ :
        TroposphericDelayEstimator).mapFolder = none ∧
    (⟨⟨⟨2023, 10, 26⟩, 15, 12, 33⟩, .CUBIC, .GRID, .VMF3, .OP, .FINE, none⟩ :
        TroposphericDelayEstimator).mapType = .VMF3 ∧
    troposphericEstimateDelay
      ⟨⟨⟨2023, 10, 26⟩, 15, 12, 33⟩, .CUBIC, .GRID, .VMF3, .OP, .FINE, none⟩
      (fun _ _ => .ok ([], [])) = .error .unboundLocalError :=
  ⟨rfl, rfl, tropospheric_none_map_folder_unbound_local.1 _ (fun _ _ => .ok ([], [])) rfl rfl⟩

theorem bilinear_ne_wrongCenter (latAxis lonAxis : List ℚ) (grid : List (List ℚ))
    (lat lon : ℚ) : bilinear latAxis lonAxis grid lat lon ≠ .error .wrongAnalysisCenterNameError := by
  rcases hx : findCell latAxis lat with _ | i <;>
    rcases hy : findCell lonAxis lon with _ | j <;>
      simp [bilinear, hx, hy]

theorem mapM_except_error {α β ε : Type} (f : α → Except ε β) (l : List α) (e : ε)
    (h : l.mapM f = .error e) : ∃ a ∈ l, f a = .error e := by
  induction l with
  | nil =>
    rw [List.mapM_nil] at h
    simp [pure, Except.pure] at h
  | cons x xs ih =>
    rw [List.mapM_cons] at h
    cases hx : f x with
    | error ex =>
      rw [hx] at h
      simp only [bind, Except.bind] at h
      cases h
      exact ⟨x, by simp, hx⟩
    | ok vx =>
      rw [hx] at h
      cases hxs : xs.mapM f with
      | error exs =>
        rw [hxs] at h
        simp only [bind, Except.bind] at h
        cases h
        obtain ⟨a, ha, hfa⟩ := ih hxs
        exact ⟨a, by simp [ha], hfa⟩
      | ok vxs =>
        rw [hxs] at h
        simp [bind, Except.bind, pure, Except.pure] at h

theorem except_map_ne {α β ε : Type} (f : α → β) (x : Except ε α) (e : ε)
    (hx : x ≠ .error e) : x.map f ≠ .error e := by
  cases x <;> simp [Except.map] at * <;> exact hx

theorem except_bind_ne {α β ε : Type} {x : Except ε α} {g : α → Except ε β} (e : ε)
    (hx : x ≠ .error e) (hg : ∀ a, g a ≠ .error e) : (x >>= g) ≠ .error e := by
  cases x with
  | error er => simpa [bind, Except.bind] using hx
  | ok a => simpa [bind, Except.bind] using hg a

theorem mapM_ne {α β ε : Type} (f : α → Except ε β) (l : List α) (e : ε)
    (hf : ∀ a ∈ l, f a ≠ .error e) : l.mapM f ≠ .error e := fun h =>
  match mapM_except_error f l e h with
  | ⟨a, ha, hfa⟩ => hf a ha hfa

theorem epochTimestampFormatter_ne_wrongCenter (s : String) :
    epochTimestampFormatter s ≠ .error .wrongAnalysisCenterNameError := by
  unfold epochTimestampFormatter
  split <;> simp

theorem pyVstack_ne_wrongCenter (rows : List (List ℚ)) :
    pyVstack rows ≠ .error .wrongAnalysisCenterNameError := by
  rcases rows with _ | ⟨r, rs⟩
  · simp [pyVstack]
  · simp only [pyVstack]
    split <;> simp

theorem tecSectionData_ne_wrongCenter (e : Int) (sec : List String) :
    tecSectionData e sec ≠ .error .wrongAnalysisCenterNameError :=
  except_map_ne _ _ _ (pyVstack_ne_wrongCenter _)

theorem tecMapParsing_ne_wrongCenter (content : List String) (e : Int) :
    tecMapParsing content e ≠ .error .wrongAnalysisCenterNameError := by
  simp only [tecMapParsing]
  split
  · refine except_bind_ne _ (mapM_ne _ _ _ (fun a _ => epochTimestampFormatter_ne_wrongCenter a))
      (fun ts => ?_)
    refine except_bind_ne _ (mapM_ne _ _ _ (fun a _ => tecSectionData_ne_wrongCenter e a))
      (fun data => ?_)
    simp [pure, Except.pure]
  · simp

theorem extractExponent_ne_wrongCenter (content : List String) :
    extractExponent content ≠ .error .wrongAnalysisCenterNameError := by
  unfold extractExponent
  split <;> simp

theorem strptimeEpoch_ne_wrongCenter (e : TecEpoch) :
    strptimeEpoch e ≠ .error .wrongAnalysisCenterNameError := by
  unfold strptimeEpoch
  split <;> simp

theorem readIonosphereMapFile_ne_wrongCenter (content : List String) :
    readIonosphereMapFile content ≠ .error .wrongAnalysisCenterNameError := by
  unfold readIonosphereMapFile
  refine except_bind_ne _ (extractExponent_ne_wrongCenter content) (fun ex => ?_)
  refine except_bind_ne _ (tecMapParsing_ne_wrongCenter content ex.num) (fun p => ?_)
  refine except_bind_ne _ (mapM_ne _ _ _ (fun a _ => strptimeEpoch_ne_wrongCenter a))
    (fun ts => ?_)
  simp [pure, Except.pure]

theorem estimateDelayCore_ne_wrongCenter (acq fcHz sf : ℚ) (ts : List ℚ)
    (tecData : List (List (List ℚ))) (latAxis lonAxis ippLat ippLon mf : List ℚ) :
    estimateDelayCore acq fcHz sf ts tecData latAxis lonAxis ippLat ippLon mf
      ≠ .error .wrongAnalysisCenterNameError := by
  simp only [estimateDelayCore]
  split
  · refine mapM_ne _ _ _ (fun p _ => ?_)
    refine except_bind_ne _ (bilinear_ne_wrongCenter _ _ _ _ _) (fun v1 => ?_)
    refine except_bind_ne _ (bilinear_ne_wrongCenter _ _ _ _ _) (fun v2 => ?_)
    simp [pure, Except.pure]
  · simp

theorem ionosphericEstimateDelay_ne_wrongCenter (est : IonosphericDelayEstimator)
    (readFile : String → Option (List String)) (ippLat ippLon mf : List ℚ) :
    ionosphericEstimateDelay est readFile ippLat ippLon mf
      ≠ .error .wrongAnalysisCenterNameError := by
  unfold ionosphericEstimateDelay
  rcases est.mapFolder with _ | folder
  · simp
  · simp only
    rcases readFile (folder ++ "/" ++ _) with _ | content
    · simp
    · refine except_bind_ne _ (readIonosphereMapFile_ne_wrongCenter _) (fun d => ?_)
      exact estimateDelayCore_ne_wrongCenter _ _ _ _ _ _ _ _ _ _

/-- C4: building the ionospheric estimator from an analysis-center string
that is not one of the enumerated codes (after uppercasing) makes
compute_delay fail with the WrongAnalysisCenterName configuration error for
every possible file-reading oracle, i.e. before any filesystem access; for
every string whose uppercase form is an enumerated code, the error is never
raised. -/
theorem analysis_center_validated_before_io :
    (∀ (s : String), centerFromName (pyUpper s) = none →
      ∀ (readFile : String → Option (List String)) (acq : DateTime) (fcHz sf : ℚ)
        (mm : TECMappingFunctionIncidenceAngleMethod) (sol : TECMapSolutionType)
        (res : TECMapTimeResolution) (folder : Option String) (ippLat ippLon mf : List ℚ),
        ionosphericComputeDelay readFile acq s fcHz folder sf mm sol res ippLat ippLon mf
          = .error .wrongAnalysisCenterNameError) ∧
    (∀ (s : String) (c : IonosphericAnalysisCenters), centerFromName (pyUpper s) = some c →
      ∀ (readFile : String → Option (List String)) (acq : DateTime) (fcHz sf : ℚ)
        (mm : TECMappingFunctionIncidenceAngleMethod) (sol : TECMapSolutionType)
        (res : TECMapTimeResolution) (folder : Option String) (ippLat ippLon mf : List ℚ),
        ionosphericComputeDelay readFile acq s fcHz folder sf mm sol res ippLat ippLon mf
          ≠ .error .wrongAnalysisCenterNameError) := by
  constructor
  · intro s hs readFile acq fcHz sf mm sol res folder ippLat ippLon mf
    simp [ionosphericComputeDelay, ionosphericEstimatorInit, hs, bind, Except.bind]
  · intro s c hs readFile acq fcHz sf mm sol res folder ippLat ippLon mf
    have hinit : ionosphericEstimatorInit acq s fcHz sf mm sol res folder =
        .ok ⟨acq, c, fcHz, sf, mm, sol, res, DEFAULT_IONOSPHERE_HEIGHT,
          DEFAULT_EARTH_RADIUS, folder⟩ := by
      simp [ionosphericEstimatorInit, hs]
    simp only [ionosphericComputeDelay, hinit, bind, Except.bind]
    exact ionosphericEstimateDelay_ne_wrongCenter _ _ _ _ _

/-- Witness for C4: the unknown code XYZ fails for an arbitrary oracle
while the lowercase code cod (case-insensitively valid) does not raise the
configuration error. -/
theorem analysis_center_validated_before_io_witness :
    centerFromName (pyUpper "XYZ") = none ∧
    centerFromName (pyUpper "cod") = some .COD ∧
    ionosphericComputeDelay (fun _ => some []) ⟨⟨2019, 1, 8⟩, 8, 32, 54⟩ "XYZ" 5405000454
      (some "maps") 1 .GROUND_CONVERTED .FINAL .HOUR [] [] []
      = .error .wrongAnalysisCenterNameError ∧
    ionosphericComputeDelay (fun _ => some []) ⟨⟨2019, 1, 8⟩, 8, 32, 54⟩ "cod" 5405000454
      (some "maps") 1 .GROUND_CONVERTED .FINAL .HOUR [] [] []
      ≠ .error .wrongAnalysisCenterNameError :=
  ⟨by decide, by decide,
    analysis_center_validated_before_io.1 "XYZ" (by decide) _ _ _ _ _ _ _ _ _ _ _,
    analysis_center_validated_before_io.2 "cod" .COD (by decide) _ _ _ _ _ _ _ _ _ _ _⟩

theorem mapM_except_ok_getD {α β ε : Type} (f : α → Except ε β) (l : List α) (ys : List β)
    (d : α) (dy : β) (h : l.mapM f = .ok ys) :
    ys.length = l.length ∧ ∀ i < l.length, f (l.getD i d) = .ok (ys.getD i dy) := by
  induction l generalizing ys with
  | nil =>
    rw [List.mapM_nil] at h
    simp only [pure, Except.pure] at h
    cases h
    simp
  | cons x xs ih =>
    rw [List.mapM_cons] at h
    cases hx : f x with
    | error ex => rw [hx] at h; simp [bind, Except.bind] at h
    | ok vx =>
      rw [hx] at h
      cases hxs : xs.mapM f with
      | error exs => rw [hxs] at h; simp [bind, Except.bind] at h
      | ok vxs =>
        rw [hxs] at h
        simp only [bind, Except.bind, pure, Except.pure] at h
        cases h
        obtain ⟨hlen, hpt⟩ := ih vxs hxs
        refine ⟨by simp [hlen], fun i hi => ?_⟩
        cases i with
        | zero => simpa using hx
        | succ i' => simpa using hpt i' (by simpa using hi)

theorem sorted_getD_lt (l : List ℚ) (hs : l.Sorted (· < ·)) (i j : Nat) (hij : i < j)
    (hj : j < l.length) : l.getD i 0 < l.getD j 0 := by
  rw [List.getD_eq_get l 0 (lt_trans hij hj), List.getD_eq_get l 0 hj]
  exact hs.rel_get_of_lt (by exact hij)

theorem sorted_getD_le (l : List ℚ) (hs : l.Sorted (· < ·)) (i j : Nat) (hij : i ≤ j)
    (hj : j < l.length) : l.getD i 0 ≤ l.getD j 0 := by
  rcases Nat.eq_or_lt_of_le hij with rfl | hlt
  · exact le_refl _
  · exact le_of_lt (sorted_getD_lt l hs i j hlt hj)

theorem countLt_sorted (l : List ℚ) (k : Nat) (hs : l.Sorted (· < ·)) (hk : k < l.length) :
    countLt l (l.getD k 0) = k := by
  induction l generalizing k with
  | nil => simp at hk
  | cons a tl ih =>
    have hall : ∀ b ∈ tl, a < b := (List.sorted_cons.mp hs).1
    have htl : tl.Sorted (· < ·) := (List.sorted_cons.mp hs).2
    cases k with
    | zero =>
      have hnil : tl.filter (fun b => decide (b < a)) = [] :=
        List.filter_eq_nil.mpr (fun b hb => by simp [not_lt.mpr (le_of_lt (hall b hb))])
      simp [countLt, List.filter, hnil]
    | succ k' =>
      have hk' : k' < tl.length := by simpa using hk
      have hmem : tl.getD k' 0 ∈ tl := by
        rw [List.getD_eq_get tl 0 hk']
        exact List.get_mem tl k' hk'
      have hax : a < tl.getD k' 0 := hall _ hmem
      simp only [countLt, List.getD_cons_succ, List.filter_cons]
      rw [if_pos (by simpa using hax)]
      simpa using ih k' htl hk'

theorem head?_eq_getD (l : List ℚ) (h : l ≠ []) : l.head? = some (l.getD 0 0) := by
  cases l with
  | nil => exact absurd rfl h
  | cons a t => simp

theorem getLast?_eq_getD (l : List ℚ) (h : l ≠ []) :
    l.getLast? = some (l.getD (l.length - 1) 0) := by
  induction l with
  | nil => exact absurd rfl h
  | cons a t ih =>
    cases t with
    | nil => simp
    | cons b t' =>
      rw [List.getLast?_cons_cons, ih (by simp)]
      simp

theorem findCell_node (l : List ℚ) (k : Nat) (hs : l.Sorted (· < ·)) (h2 : 2 ≤ l.length)
    (hk : k < l.length) :
    findCell l (l.getD k 0) = some (min (l.length - 2) (max k 1 - 1)) := by
  have hne : l ≠ [] := by
    intro h
    rw [h] at h2
    simp at h2
  have hlo : l.getD 0 0 ≤ l.getD k 0 := sorted_getD_le l hs 0 k (Nat.zero_le k) hk
  have hhi : l.getD k 0 ≤ l.getD (l.length - 1) 0 :=
    sorted_getD_le l hs k (l.length - 1) (by omega) (by omega)
  unfold findCell
  rw [head?_eq_getD l hne, getLast?_eq_getD l hne]
  simp only
  rw [if_neg (by push_neg; exact ⟨hlo, hhi⟩ : ¬ _)]
  rw [countLt_sorted l k hs hk]

theorem bilinear_node (latAx lonAx : List ℚ) (grid : List (List ℚ)) (i j : Nat)
    (hslat : latAx.Sorted (· < ·)) (hslon : lonAx.Sorted (· < ·))
    (h2lat : 2 ≤ latAx.length) (h2lon : 2 ≤ lonAx.length)
    (hi : i < latAx.length) (hj : j < lonAx.length) :
    bilinear latAx lonAx grid (latAx.getD i 0) (lonAx.getD j 0)
      = .ok ((grid.getD i []).getD j 0) := by
  unfold bilinear
  rw [findCell_node latAx i hslat h2lat hi, findCell_node lonAx j hslon h2lon hj]
  simp only
  have hrow : ∀ (r : List ℚ),
      (1 - (lonAx.getD j 0 - lonAx.getD (min (lonAx.length - 2) (max j 1 - 1)) 0) /
        (lonAx.getD (min (lonAx.length - 2) (max j 1 - 1) + 1) 0 -
          lonAx.getD (min (lonAx.length - 2) (max j 1 - 1)) 0)) *
        r.getD (min (lonAx.length - 2) (max j 1 - 1)) 0 +
      (lonAx.getD j 0 - lonAx.getD (min (lonAx.length - 2) (max j 1 - 1)) 0) /
        (lonAx.getD (min (lonAx.length - 2) (max j 1 - 1) + 1) 0 -
          lonAx.getD (min (lonAx.length - 2) (max j 1 - 1)) 0) *
        r.getD (min (lonAx.length - 2) (max j 1 - 1) + 1) 0 = r.getD j 0 := by
    intro r
    rcases Nat.eq_zero_or_pos j with rfl | hjpos
    · have hmin : min (lonAx.length - 2) (max 0 1 - 1) = 0 := by omega
      rw [hmin]
      simp
    · have hmin : min (lonAx.length - 2) (max j 1 - 1) = j - 1 := by omega
      have hj1 : j - 1 + 1 = j := by omega
      rw [hmin, hj1]
      have hlt : lonAx.getD (j - 1) 0 < lonAx.getD j 0 :=
        sorted_getD_lt lonAx hslon (j - 1) j (by omega) hj
      have hne : lonAx.getD j 0 - lonAx.getD (j - 1) 0 ≠ 0 := by
        intro h
        exact absurd (by linarith : lonAx.getD (j - 1) 0 = lonAx.getD j 0) (ne_of_lt hlt)
      rw [div_self hne]
      ring
  rcases Nat.eq_zero_or_pos i with rfl | hipos
  · have hmin : min (latAx.length - 2) (max 0 1 - 1) = 0 := by omega
    rw [hmin]
    simp only [sub_self, zero_div, sub_zero, one_mul, zero_mul, add_zero]
    exact congrArg Except.ok (hrow _)
  · have hmin : min (latAx.length - 2) (max i 1 - 1) = i - 1 := by omega
    have hi1 : i - 1 + 1 = i := by omega
    rw [hmin, hi1]
    have hlt : latAx.getD (i - 1) 0 < latAx.getD i 0 :=
      sorted_getD_lt latAx hslat (i - 1) i (by omega) hi
    have hne : latAx.getD i 0 - latAx.getD (i - 1) 0 ≠ 0 := by
      intro h
      exact absurd (by linarith : latAx.getD (i - 1) 0 = latAx.getD i 0) (ne_of_lt hlt)
    have hty : (latAx.getD i 0 - latAx.getD (i - 1) 0) /
        (latAx.getD i 0 - latAx.getD (i - 1) 0) = 1 := div_self hne
    rw [hty]
    rw [show (1 : ℚ) - 1 = 0 by ring]
    simp only [zero_mul, one_mul, zero_add]
    exact congrArg Except.ok (hrow _)

theorem ionoTimeInterp_at_zero_offset (d v1 v2 : ℚ) (hd : 0 < d) :
    ionoTimeInterp 0 d v1 v2 = v1 := by
  unfold ionoTimeInterp
  rw [abs_of_pos hd, sub_zero, abs_zero, div_self (ne_of_gt hd)]
  ring

theorem getD_range (n p : Nat) (hp : p < n) : (List.range n).getD p 0 = p := by
  rw [List.getD_eq_get _ _ (by simpa using hp)]
  simp

/-- C7: when the acquisition time equals the earlier bracketing epoch, the
time-interpolation weights reduce the combined TEC to exactly the epoch-t0
spatially interpolated value with zero Earth-rotation longitude shift, and
the bilinear spatial interpolation at a grid node returns the grid value
itself. -/
theorem tec_time_interpolation_identity_at_epoch :
    (∀ (delta1 v1 v2 : ℚ), 0 < delta1 → ionoTimeInterp 0 delta1 v1 v2 = v1) ∧
    (∀ (acq t1 : ℚ) (ts : List ℚ) (tecData : List (List (List ℚ)))
        (g0 g1 : List (List ℚ)) (latAx lonAx ippLat ippLon tecs : List ℚ) (p : Nat),
      pySlice ts (selectBracketIdx ts acq) (selectBracketIdx ts acq + 2) = [acq, t1] →
      pySlice tecData (selectBracketIdx ts acq) (selectBracketIdx ts acq + 2) = [g0, g1] →
      acq < t1 → p < ippLat.length →
      tecInterpolatedAt acq ts tecData latAx lonAx ippLat ippLon = .ok tecs →
      bilinear latAx lonAx g0 (ippLat.getD p 0) (ippLon.getD p 0) = .ok (tecs.getD p 0)) ∧
    (∀ (latAx lonAx : List ℚ) (grid : List (List ℚ)) (i j : Nat),
      latAx.Sorted (· < ·) → lonAx.Sorted (· < ·) → 2 ≤ latAx.length → 2 ≤ lonAx.length →
      i < latAx.length → j < lonAx.length →
      bilinear latAx lonAx grid (latAx.getD i 0) (lonAx.getD j 0)
        = .ok ((grid.getD i []).getD j 0)) := by
  refine ⟨ionoTimeInterp_at_zero_offset, ?_, bilinear_node⟩
  intro acq t1 ts tecData g0 g1 latAx lonAx ippLat ippLon tecs p hsel hgsel hlt hp hok
  simp only [tecInterpolatedAt] at hok
  rw [hsel, hgsel] at hok
  simp only at hok
  obtain ⟨hlen, hpt⟩ := mapM_except_ok_getD _ _ _ 0 0 hok
  have hF := hpt p (by simpa using hp)
  rw [getD_range _ _ hp] at hF
  have harg : ippLon.getD p 0 + 360 / 24 * ((acq - acq) / 3600) = ippLon.getD p 0 := by
    ring
  rw [harg] at hF
  cases hb1 : bilinear latAx lonAx g0 (ippLat.getD p 0) (ippLon.getD p 0) with
  | error e =>
    rw [hb1] at hF
    simp [bind, Except.bind] at hF
  | ok v1 =>
    rw [hb1] at hF
    cases hb2 : bilinear latAx lonAx g1 (ippLat.getD p 0)
        (ippLon.getD p 0 + 360 / 24 * ((t1 - acq) / 3600)) with
    | error e =>
      rw [hb2] at hF
      simp [bind, Except.bind] at hF
    | ok v2 =>
      rw [hb2] at hF
      have hF' : Except.ok (ionoTimeInterp ((acq - acq) / 3600) ((t1 - acq) / 3600) v1 v2)
          = (Except.ok (tecs.getD p 0) : Except PyErr ℚ) := hF
      have hval := Except.ok.inj hF'
      have hd0 : (acq - acq) / 3600 = 0 := by ring
      have hd1 : 0 < (t1 - acq) / 3600 := div_pos (by linarith) (by norm_num)
      rw [← hval, hd0, ionoTimeInterp_at_zero_offset _ _ _ hd1]

set_option maxHeartbeats 1000000 in
/-- Witness for C7 at a concrete two-epoch bracket with the acquisition
time equal to the first epoch, and at a concrete grid node. -/
theorem tec_time_interpolation_identity_witness :
    ionoTimeInterp 0 1 (9 : ℚ) 7 = 9 ∧
    bilinear [(0 : ℚ), 5/2] [(0 : ℚ), 15] [[1, 2], [3, 4]] 0 0
      = .ok ((([(1 : ℚ)]).getD 0 0)) ∧
    bilinear [(0 : ℚ), 5/2] [(0 : ℚ), 15] [[1, 2], [3, 4]]
      (([(0 : ℚ), 5/2]).getD 1 0) (([(0 : ℚ), 15]).getD 1 0)
      = .ok ((([[1, 2], [3, 4]] : List (List ℚ)).getD 1 []).getD 1 0) :=
  ⟨tec_time_interpolation_identity_at_epoch.1 1 9 7 (by norm_num),
   tec_time_interpolation_identity_at_epoch.2.1 0 3600 [0, 3600]
     [[[1, 2], [3, 4]], [[5, 6], [7, 8]]] [[1, 2], [3, 4]] [[5, 6], [7, 8]]
     [0, 5/2] [0, 15] [0] [0] [1] 0
     (by norm_num [pySlice, pySliceNorm, selectBracketIdx, argminList])
     (by norm_num [pySlice, pySliceNorm, selectBracketIdx, argminList])
     (by norm_num) (by norm_num)
     (by
       have h1 : selectBracketIdx [(0 : ℚ), 3600] 0 = 0 := by
         norm_num [selectBracketIdx, argminList]
       have hts : pySlice [(0 : ℚ), 3600] 0 (0 + 2) = [0, 3600] := by
         norm_num [pySlice, pySliceNorm]
       have hgs : pySlice [[[(1 : ℚ), 2], [3, 4]], [[5, 6], [7, 8]]] 0 (0 + 2) =
           [[[(1 : ℚ), 2], [3, 4]], [[5, 6], [7, 8]]] := by
         norm_num [pySlice, pySliceNorm]
       simp only [tecInterpolatedAt, h1, hts, hgs]
       norm_num [bilinear, findCell, countLt, ionoTimeInterp, List.mapM_cons,
         List.mapM_nil, bind, Except.bind, pure, Except.pure, List.range_succ]
       rfl),
   tec_time_interpolation_identity_at_epoch.2.2 [0, 5/2] [0, 15] [[1, 2], [3, 4]] 1 1
     (by norm_num) (by norm_num) (by norm_num) (by norm_num) (by norm_num) (by norm_num)⟩

theorem exists_mapM_ok {α γ ε : Type} (g : α → Except ε γ) (l : List α)
    (hg : ∀ a ∈ l, ∃ c, g a = .ok c) : ∃ cs, l.mapM g = .ok cs := by
  induction l with
  | nil => exact ⟨[], by rw [List.mapM_nil]; rfl⟩
  | cons x xs ih =>
    obtain ⟨c, hc⟩ := hg x (by simp)
    obtain ⟨cs, hcs⟩ := ih (fun a ha => hg a (by simp [ha]))
    exact ⟨c :: cs, by rw [List.mapM_cons, hc, hcs]; rfl⟩

theorem mapM_map_rel {α β γ ε : Type} (f : α → Except ε β) (g : α → Except ε γ)
    (h : γ → β) (l : List α) (hrel : ∀ a ∈ l, f a = (g a).map h) :
    l.mapM f = (l.mapM g).map (List.map h) := by
  induction l with
  | nil =>
    rw [List.mapM_nil, List.mapM_nil]
    rfl
  | cons x xs ih =>
    rw [List.mapM_cons, List.mapM_cons, hrel x (by simp),
      ih (fun a ha => hrel a (by simp [ha]))]
    cases g x with
    | error e => rfl
    | ok b =>
      cases xs.mapM g with
      | error e => rfl
      | ok bs => rfl

theorem map_scale_of_vstack (x : Except PyErr (List (List ℚ))) (e : Int) :
    x.map (fun g => g.map (fun row => row.map (fun v => v * (10 : ℚ) ^ e)))
      = (x.map (fun g => g.map (fun row => row.map (fun v => v * (10 : ℚ) ^ (0 : Int))))).map
          (fun g => g.map (fun row => row.map (fun v => v * (10 : ℚ) ^ e))) := by
  cases x <;> simp [Except.map, List.map_map, Function.comp, zpow_zero]

theorem tecSectionData_scale (e : Int) (sec : List String) :
    tecSectionData e sec = (tecSectionData 0 sec).map
      (fun g => g.map (fun row => row.map (fun v => v * (10 : ℚ) ^ e))) := by
  unfold tecSectionData
  exact map_scale_of_vstack _ e

theorem tecMapParsing_scale (content : List String) (e : Int) :
    tecMapParsing content e = (tecMapParsing content 0).map
      (fun r => (r.1, r.2.map (fun g => g.map (fun row => row.map
        (fun v => v * (10 : ℚ) ^ e))))) := by
  by_cases hc : (markerIdxs content "START OF TEC MAP").length
      = (markerIdxs content "END OF TEC MAP").length
  · simp only [tecMapParsing, if_pos hc]
    cases hts : ((markerIdxs content "START OF TEC MAP").zip
        (markerIdxs content "END OF TEC MAP")).map
        (fun b => sliceBetween content b.1 b.2) |>.flatMap
        (fun sec => sec.filter (fun l => strContains l "EPOCH OF CURRENT MAP")) |>.mapM
        epochTimestampFormatter with
    | error er => rfl
    | ok ts =>
      rw [mapM_map_rel (tecSectionData e) (tecSectionData 0) _ _
        (fun a _ => tecSectionData_scale e a)]
      cases ((markerIdxs content "START OF TEC MAP").zip
          (markerIdxs content "END OF TEC MAP")).map
          (fun b => sliceBetween content b.1 b.2) |>.mapM (tecSectionData 0) with
      | error er => rfl
      | ok data0 => rfl
  · simp only [tecMapParsing, if_neg hc]
    rfl

theorem bind2_ok {ε α β γ : Type} {x : Except ε α} {y : Except ε β} {f : α → β → γ}
    {d : γ} (h : (do let a ← x; let b ← y; pure (f a b) : Except ε γ) = .ok d) :
    ∃ a b, x = .ok a ∧ y = .ok b ∧ f a b = d := by
  cases x with
  | error e => simp [bind, Except.bind] at h
  | ok a =>
    cases y with
    | error e => simp [bind, Except.bind] at h
    | ok b =>
      refine ⟨a, b, rfl, rfl, ?_⟩
      have h' : Except.ok (f a b) = (Except.ok d : Except ε γ) := h
      exact Except.ok.inj h'

/-- C1: each per-target output of the ionospheric estimate_delay core is
exactly (40.3e16 / fc^2) x mapping-function x temporally-interpolated-TEC x
scaling-factor, and the TEC grids produced by the parser carry the file's
10^exponent scaling: parsing with exponent e equals parsing with exponent 0
with every grid value multiplied by 10^e. -/
theorem iono_delay_formula :
    (∀ (acq fcHz sf : ℚ) (ts : List ℚ) (tecData : List (List (List ℚ)))
        (latAx lonAx ippLat ippLon mf ds : List ℚ),
      0 < fcHz →
      estimateDelayCore acq fcHz sf ts tecData latAx lonAx ippLat ippLon mf = .ok ds →
      ∃ tecs, tecInterpolatedAt acq ts tecData latAx lonAx ippLat ippLon = .ok tecs ∧
        ∀ p < ippLat.length,
          ds.getD p 0 = 403 * 10 ^ 15 / fcHz ^ 2 * mf.getD p 0 * tecs.getD p 0 * sf) ∧
    (∀ (content : List String) (e : Int),
      tecMapParsing content e = (tecMapParsing content 0).map
        (fun r => (r.1, r.2.map (fun g => g.map (fun row => row.map
          (fun v => v * (10 : ℚ) ^ e)))))) := by
  refine ⟨?_, tecMapParsing_scale⟩
  intro acq fcHz sf ts tecData latAx lonAx ippLat ippLon mf ds hfc hds
  simp only [estimateDelayCore] at hds
  simp only [tecInterpolatedAt]
  split at hds
  case h_2 => exact absurd hds (by simp)
  case h_1 t0 t1 g0 g1 heqts heqg =>
    have hFok := mapM_except_ok_getD _ _ _ 0 0 hds
    have hGex : ∀ p ∈ List.range ippLat.length, ∃ c,
        (do
          let v1 ← bilinear latAx lonAx g0 (ippLat.getD p 0)
            (ippLon.getD p 0 + 360 / 24 * ((t0 - acq) / 3600))
          let v2 ← bilinear latAx lonAx g1 (ippLat.getD p 0)
            (ippLon.getD p 0 + 360 / 24 * ((t1 - acq) / 3600))
          pure (ionoTimeInterp ((t0 - acq) / 3600) ((t1 - acq) / 3600) v1 v2)) = .ok c := by
      intro p hp
      have hpn : p < ippLat.length := by simpa using hp
      have hFp := hFok.2 p (by simpa using hpn)
      rw [getD_range _ _ hpn] at hFp
      obtain ⟨v1, v2, hb1, hb2, hval⟩ := bind2_ok hFp
      exact ⟨ionoTimeInterp ((t0 - acq) / 3600) ((t1 - acq) / 3600) v1 v2,
        by rw [hb1, hb2]; rfl⟩
    obtain ⟨tecs, htecs⟩ := exists_mapM_ok _ _ hGex
    refine ⟨tecs, htecs, ?_⟩
    intro p hpn
    have hFp := hFok.2 p (by simpa using hpn)
    have hGp := (mapM_except_ok_getD _ _ _ 0 0 htecs).2 p (by simpa using hpn)
    rw [getD_range _ _ hpn] at hFp hGp
    obtain ⟨v1, v2, hb1, hb2, hFval⟩ := bind2_ok hFp
    obtain ⟨w1, w2, hc1, hc2, hGval⟩ := bind2_ok hGp
    rw [hb1] at hc1
    rw [hb2] at hc2
    cases Except.ok.inj hc1
    cases Except.ok.inj hc2
    rw [← hFval, ← hGval]
    ring

set_option maxHeartbeats 1000000 in
/-- Witness for C1 at a concrete bracket, grids and carrier frequency. -/
theorem iono_delay_formula_witness :
    (0 : ℚ) < 2 ∧
    estimateDelayCore 0 2 1 [0, 3600] [[[1, 2], [3, 4]], [[5, 6], [7, 8]]]
      [0, 5/2] [0, 15] [0] [0] [1] = .ok [403 * 10 ^ 15 / 4] ∧
    ∃ tecs, tecInterpolatedAt 0 [0, 3600] [[[1, 2], [3, 4]], [[5, 6], [7, 8]]]
        [0, 5/2] [0, 15] [0] [0] = .ok tecs ∧
      ∀ p < ([0] : List ℚ).length,
        ([403 * 10 ^ 15 / 4] : List ℚ).getD p 0
          = 403 * 10 ^ 15 / 2 ^ 2 * (([1] : List ℚ).getD p 0) * tecs.getD p 0 * 1 := by
  have h1 : selectBracketIdx [(0 : ℚ), 3600] 0 = 0 := by
    norm_num [selectBracketIdx, argminList]
  have hts : pySlice [(0 : ℚ), 3600] 0 (0 + 2) = [0, 3600] := by
    norm_num [pySlice, pySliceNorm]
  have hgs : pySlice [[[(1 : ℚ), 2], [3, 4]], [[5, 6], [7, 8]]] 0 (0 + 2) =
      [[[(1 : ℚ), 2], [3, 4]], [[5, 6], [7, 8]]] := by
    norm_num [pySlice, pySliceNorm]
  have hcore : estimateDelayCore 0 2 1 [0, 3600] [[[1, 2], [3, 4]], [[5, 6], [7, 8]]]
      [0, 5/2] [0, 15] [0] [0] [1] = .ok [403 * 10 ^ 15 / 4] := by
    simp only [estimateDelayCore, h1, hts, hgs]
    norm_num [bilinear, findCell, countLt, ionoTimeInterp, List.mapM_cons,
      List.mapM_nil, bind, Except.bind, pure, Except.pure, List.range_succ]
    norm_num [List.mapM.loop]
  exact ⟨by norm_num, hcore,
    iono_delay_formula.1 0 2 1 _ _ _ _ _ _ _ _ (by norm_num) hcore⟩

theorem epochTimestampFormatter_errors (s : String) (e : PyErr)
    (h : epochTimestampFormatter s = .error e) : e = .indexError := by
  unfold epochTimestampFormatter at h
  split at h
  · exact absurd h (by simp)
  · cases h
    rfl

theorem pyVstack_errors (rows : List (List ℚ)) (e : PyErr)
    (h : pyVstack rows = .error e) : e = .valueError := by
  rcases rows with _ | ⟨r, rs⟩
  · cases h
    rfl
  · simp only [pyVstack] at h
    split at h
    · exact absurd h (by simp)
    · cases h
      rfl

theorem except_map_errors {α β : Type} (f : α → β) (x : Except PyErr α) (e : PyErr)
    (hx : ∀ e1, x = .error e1 → e1 = .valueError) (h : x.map f = .error e) :
    e = .valueError := by
  cases x with
  | error e1 =>
    simp only [Except.map] at h
    have he := Except.error.inj h
    exact he ▸ hx e1 rfl
  | ok a => simp [Except.map] at h

theorem tecSectionData_errors (ef : Int) (sec : List String) (e : PyErr)
    (h : tecSectionData ef sec = .error e) : e = .valueError := by
  unfold tecSectionData at h
  exact except_map_errors _ _ _ (pyVstack_errors _) h

theorem except_bind_errors {α β : Type} {x : Except PyErr α} {g : α → Except PyErr β}
    {e : PyErr} (P : PyErr → Prop) (hx : ∀ e1, x = .error e1 → P e1)
    (hg : ∀ a e1, g a = .error e1 → P e1) (h : (x >>= g) = .error e) : P e := by
  cases x with
  | error e1 =>
    simp only [bind, Except.bind] at h
    have he := Except.error.inj h
    exact he ▸ hx e1 rfl
  | ok a =>
    simp only [bind, Except.bind] at h
    exact hg a e h

theorem mapM_errors {α β : Type} (f : α → Except PyErr β) (l : List α) (e : PyErr)
    (P : PyErr → Prop) (hf : ∀ a ∈ l, ∀ e1, f a = .error e1 → P e1)
    (h : l.mapM f = .error e) : P e := by
  obtain ⟨a, ha, hfa⟩ := mapM_except_error f l e h
  exact hf a ha e hfa

/-- C5 (amended): the IONEX TEC-map parser raises TECMapReadingError
exactly when the numbers of START and END markers differ; on success it
returns one data grid per marked section and one timestamp per epoch line
found inside the sections (one per section only when each section holds
exactly one epoch line). -/
theorem tec_marker_count_check (content : List String) (e : Int) :
    (tecMapParsing content e = .error .tecMapReadingError ↔
      (markerIdxs content "START OF TEC MAP").length
        ≠ (markerIdxs content "END OF TEC MAP").length) ∧
    (∀ ts grids, tecMapParsing content e = .ok (ts, grids) →
      grids.length = (markerIdxs content "START OF TEC MAP").length ∧
      ts.length = ((((markerIdxs content "START OF TEC MAP").zip
          (markerIdxs content "END OF TEC MAP")).map
          (fun b => sliceBetween content b.1 b.2)).flatMap
          (fun sec => sec.filter (fun l => strContains l "EPOCH OF CURRENT MAP"))).length) := by
  by_cases hc : (markerIdxs content "START OF TEC MAP").length
      = (markerIdxs content "END OF TEC MAP").length
  · constructor
    · constructor
      · intro h
        simp only [tecMapParsing, if_pos hc] at h
        have hP : (PyErr.tecMapReadingError = PyErr.valueError ∨
            PyErr.tecMapReadingError = PyErr.indexError) := by
          refine except_bind_errors
            (fun er => er = PyErr.valueError ∨ er = PyErr.indexError) ?_ ?_ h
          · intro e1 h1
            right
            exact mapM_errors _ _ _ (fun er => er = PyErr.indexError)
              (fun a _ e2 h2 => epochTimestampFormatter_errors a e2 h2) h1
          · intro a e1 h1
            refine except_bind_errors
              (fun er => er = PyErr.valueError ∨ er = PyErr.indexError) ?_ ?_ h1
            · intro e2 h2
              left
              exact mapM_errors _ _ _ (fun er => er = PyErr.valueError)
                (fun sec _ e3 h3 => tecSectionData_errors e sec e3 h3) h2
            · intro d e2 h2
              simp [pure, Except.pure] at h2
        rcases hP with h1 | h1 <;> cases h1
      · intro h
        exact absurd hc h
    · intro ts grids hok
      simp only [tecMapParsing, if_pos hc] at hok
      cases hmt : ((((markerIdxs content "START OF TEC MAP").zip
          (markerIdxs content "END OF TEC MAP")).map
          (fun b => sliceBetween content b.1 b.2)).flatMap
          (fun sec => sec.filter (fun l => strContains l "EPOCH OF CURRENT MAP"))).mapM
          epochTimestampFormatter with
      | error er => rw [hmt] at hok; simp [bind, Except.bind] at hok
      | ok ts1 =>
        rw [hmt] at hok
        cases hmd : (((markerIdxs content "START OF TEC MAP").zip
            (markerIdxs content "END OF TEC MAP")).map
            (fun b => sliceBetween content b.1 b.2)).mapM (tecSectionData e) with
        | error er => rw [hmd] at hok; simp [bind, Except.bind] at hok
        | ok grids1 =>
          rw [hmd] at hok
          have hok2 : (Except.ok (ts1, grids1) :
              Except PyErr (List TecEpoch × List (List (List ℚ)))) = .ok (ts, grids) := hok
          have hpair := Except.ok.inj hok2
          rw [Prod.mk.injEq] at hpair
          obtain ⟨h1, h2⟩ := hpair
          subst h1
          subst h2
          constructor
          · have hlen := (mapM_except_ok_getD _ _ _ [] [] hmd).1
            simpa [hc] using hlen
          · exact (mapM_except_ok_getD _ _ _ "" ⟨0, 0, 0, 0, 0⟩ hmt).1
  · constructor
    · simp only [tecMapParsing, if_neg hc]
      simp [hc]
    · intro ts grids hok
      simp only [tecMapParsing, if_neg hc] at hok
      exact absurd hok (by simp)

set_option maxHeartbeats 2000000 in
/-- Counterexample for C5 as stated: a file whose marker counts match (one
START, one END) but whose single section holds no EPOCH OF CURRENT MAP
line parses successfully with zero timestamps for one data grid, instead
of one timestamp per marked section. -/
theorem tec_marker_count_counterexample :
    (markerIdxs ["START OF TEC MAP", "x LAT/LON1/LON2/DLON/H", "1 2", "END OF TEC MAP"]
        "START OF TEC MAP").length
      = (markerIdxs ["START OF TEC MAP", "x LAT/LON1/LON2/DLON/H", "1 2", "END OF TEC MAP"]
        "END OF TEC MAP").length ∧
    tecMapParsing ["START OF TEC MAP", "x LAT/LON1/LON2/DLON/H", "1 2", "END OF TEC MAP"] 0
      = .ok ([], [[[1, 2]]]) := by
  constructor
  · decide
  · have h1 : markerIdxs ["START OF TEC MAP", "x LAT/LON1/LON2/DLON/H", "1 2",
        "END OF TEC MAP"] "START OF TEC MAP" = [0] := by decide
    have h2 : markerIdxs ["START OF TEC MAP", "x LAT/LON1/LON2/DLON/H", "1 2",
        "END OF TEC MAP"] "END OF TEC MAP" = [3] := by decide
    have hp : parseNumbers (String.join (sliceBetween ["x LAT/LON1/LON2/DLON/H", "1 2"] 0 2))
        = [1, 2] := by
      norm_num [parseNumbers, pySplitWs, splitWsGo, String.join, sliceBetween]
      simp +decide [parseFloat, digitsToNat]
    have hfe : ["x LAT/LON1/LON2/DLON/H", "1 2"].filter
        (fun l => ¬ strContains l "EPOCH OF CURRENT MAP")
        = ["x LAT/LON1/LON2/DLON/H", "1 2"] := by decide
    have hmk : markerIdxs ["x LAT/LON1/LON2/DLON/H", "1 2"] "LAT/LON1/LON2/DLON/H" = [0] := by
      decide
    have h3 : tecSectionData 0 ["x LAT/LON1/LON2/DLON/H", "1 2"] = .ok [[1, 2]] := by
      simp only [tecSectionData, hfe, hmk, pairwiseL]
      norm_num [hp, pyVstack, Except.map]
    have h4 : sliceBetween ["START OF TEC MAP", "x LAT/LON1/LON2/DLON/H", "1 2",
        "END OF TEC MAP"] 0 3 = ["x LAT/LON1/LON2/DLON/H", "1 2"] := by decide
    simp only [tecMapParsing, h1, h2]
    norm_num [h4]
    simp +decide [List.mapM.loop, h3, Functor.map, Except.map, bind, Except.bind, pure,
      Except.pure, strContains]

set_option maxHeartbeats 2000000 in
/-- Witness for the amended C5 at a well-formed one-section file: one
timestamp for its one epoch line and one grid for its one section. -/
theorem tec_marker_count_check_witness :
    tecMapParsing ["START OF TEC MAP", "1 2 3 4 5 EPOCH OF CURRENT MAP",
        "x LAT/LON1/LON2/DLON/H", "1 2", "END OF TEC MAP"] 0
      = .ok ([⟨1, 2, 3, 4, 5⟩], [[[1, 2]]]) ∧
    (([[[(1 : ℚ), 2]]]).length = (markerIdxs ["START OF TEC MAP",
        "1 2 3 4 5 EPOCH OF CURRENT MAP", "x LAT/LON1/LON2/DLON/H", "1 2",
        "END OF TEC MAP"] "START OF TEC MAP").length ∧
      ([(⟨1, 2, 3, 4, 5⟩ : TecEpoch)]).length
        = ((((markerIdxs ["START OF TEC MAP", "1 2 3 4 5 EPOCH OF CURRENT MAP",
            "x LAT/LON1/LON2/DLON/H", "1 2", "END OF TEC MAP"] "START OF TEC MAP").zip
            (markerIdxs ["START OF TEC MAP", "1 2 3 4 5 EPOCH OF CURRENT MAP",
              "x LAT/LON1/LON2/DLON/H", "1 2", "END OF TEC MAP"] "END OF TEC MAP")).map
            (fun b => sliceBetween ["START OF TEC MAP", "1 2 3 4 5 EPOCH OF CURRENT MAP",
              "x LAT/LON1/LON2/DLON/H", "1 2", "END OF TEC MAP"] b.1 b.2)).flatMap
            (fun sec => sec.filter (fun l => strContains l "EPOCH OF CURRENT MAP"))).length) := by
  have h1 : markerIdxs ["START OF TEC MAP", "1 2 3 4 5 EPOCH OF CURRENT MAP",
      "x LAT/LON1/LON2/DLON/H", "1 2", "END OF TEC MAP"] "START OF TEC MAP" = [0] := by decide
  have h2 : markerIdxs ["START OF TEC MAP", "1 2 3 4 5 EPOCH OF CURRENT MAP",
      "x LAT/LON1/LON2/DLON/H", "1 2", "END OF TEC MAP"] "END OF TEC MAP" = [4] := by decide
  have hp : parseNumbers (String.join (sliceBetween ["x LAT/LON1/LON2/DLON/H", "1 2"] 0 2))
      = [1, 2] := by
    norm_num [parseNumbers, pySplitWs, splitWsGo, String.join, sliceBetween]
    simp +decide [parseFloat, digitsToNat]
  have hfe : ["1 2 3 4 5 EPOCH OF CURRENT MAP", "x LAT/LON1/LON2/DLON/H", "1 2"].filter
      (fun l => ¬ strContains l "EPOCH OF CURRENT MAP")
      = ["x LAT/LON1/LON2/DLON/H", "1 2"] := by decide
  have hmk : markerIdxs ["x LAT/LON1/LON2/DLON/H", "1 2"] "LAT/LON1/LON2/DLON/H" = [0] := by
    decide
  have h3 : tecSectionData 0 ["1 2 3 4 5 EPOCH OF CURRENT MAP", "x LAT/LON1/LON2/DLON/H", "1 2"]
      = .ok [[1, 2]] := by
    simp only [tecSectionData, hfe, hmk, pairwiseL]
    norm_num [hp, pyVstack, Except.map]
  have h4 : sliceBetween ["START OF TEC MAP", "1 2 3 4 5 EPOCH OF CURRENT MAP",
      "x LAT/LON1/LON2/DLON/H", "1 2", "END OF TEC MAP"] 0 4
      = ["1 2 3 4 5 EPOCH OF CURRENT MAP", "x LAT/LON1/LON2/DLON/H", "1 2"] := by decide
  have hfmt : epochTimestampFormatter "1 2 3 4 5 EPOCH OF CURRENT MAP"
      = .ok ⟨1, 2, 3, 4, 5⟩ := by decide
  have hok : tecMapParsing ["START OF TEC MAP", "1 2 3 4 5 EPOCH OF CURRENT MAP",
      "x LAT/LON1/LON2/DLON/H", "1 2", "END OF TEC MAP"] 0
      = .ok ([⟨1, 2, 3, 4, 5⟩], [[[1, 2]]]) := by
    simp only [tecMapParsing, h1, h2]
    norm_num [h4]
    simp +decide [List.mapM.loop, h3, hfmt, Functor.map, Except.map, bind, Except.bind, pure,
      Except.pure, strContains]
  exact ⟨hok, (tec_marker_count_check _ 0).2 _ _ hok⟩

/-- C6 (amended): a missing HGT1 or BASE RADIUS header is recovered with
the documented defaults (450000 m height, 6371000 m radius) and a warning,
and reading proceeds whenever the exponent extraction, the TEC parsing and
the strptime re-parse of every parsed timestamp succeed; the EXPONENT
header has no such recovery, and an out-of-range timestamp field makes the
whole read fail with the strptime ValueError. -/
theorem ionex_header_defaults (content : List String) :
    ((content.filter (fun l => strContains l "HGT1") = []) →
      extractOrDefault content "HGT1" DEFAULT_IONOSPHERE_HEIGHT
        = (DEFAULT_IONOSPHERE_HEIGHT, true)) ∧
    ((content.filter (fun l => strContains l "BASE RADIUS") = []) →
      extractOrDefault content "BASE RADIUS" DEFAULT_EARTH_RADIUS
        = (DEFAULT_EARTH_RADIUS, true)) ∧
    (∀ r, readIonosphereMapFile content = .ok r →
      ((content.filter (fun l => strContains l "HGT1") = []) →
        r.ionosphereHeight = 450000 ∧ r.heightWarning = true) ∧
      ((content.filter (fun l => strContains l "BASE RADIUS") = []) →
        r.earthRadius = 6371000 ∧ r.radiusWarning = true)) ∧
    (∀ (e : ℚ) (parsed : List TecEpoch × List (List (List ℚ))) (ts : List TecEpoch),
      extractExponent content = .ok e → tecMapParsing content e.num = .ok parsed →
      parsed.1.mapM strptimeEpoch = .ok ts →
      readIonosphereMapFile content = .ok
        ⟨(extractOrDefault content "HGT1" DEFAULT_IONOSPHERE_HEIGHT).1,
          (extractOrDefault content "BASE RADIUS" DEFAULT_EARTH_RADIUS).1,
          (extractOrDefault content "HGT1" DEFAULT_IONOSPHERE_HEIGHT).2,
          (extractOrDefault content "BASE RADIUS" DEFAULT_EARTH_RADIUS).2,
          e, ts, parsed.2.map List.reverse, tecMapLatAxis, tecMapLonAxis⟩) ∧
    (∀ (e : ℚ) (parsed : List TecEpoch × List (List (List ℚ))) (err : PyErr),
      extractExponent content = .ok e → tecMapParsing content e.num = .ok parsed →
      parsed.1.mapM strptimeEpoch = .error err →
      readIonosphereMapFile content = .error err) := by
  have hdef : ∀ (pat : String) (d : ℚ), (content.filter (fun l => strContains l pat) = []) →
      extractOrDefault content pat d = (d, true) := by
    intro pat d h
    unfold extractOrDefault extractHeaderValues
    rw [h]
    rfl
  refine ⟨hdef _ _, hdef _ _, ?_, ?_, ?_⟩
  · intro r hr
    unfold readIonosphereMapFile at hr
    cases hexp : extractExponent content with
    | error er => rw [hexp] at hr; simp [bind, Except.bind] at hr
    | ok e =>
      rw [hexp] at hr
      cases hparse : tecMapParsing content e.num with
      | error er =>
        simp only [bind, Except.bind] at hr
        rw [hparse] at hr
        simp [bind, Except.bind] at hr
      | ok parsed =>
        simp only [bind, Except.bind] at hr
        rw [hparse] at hr
        simp only [bind, Except.bind] at hr
        cases hmap : parsed.1.mapM strptimeEpoch with
        | error er =>
          rw [hmap] at hr
          simp [bind, Except.bind] at hr
        | ok ts =>
          rw [hmap] at hr
          simp only [bind, Except.bind, pure, Except.pure] at hr
          have hr2 := Except.ok.inj hr
          constructor
          · intro hh
            rw [← hr2]
            simp [hdef _ _ hh]
            rfl
          · intro hb
            rw [← hr2]
            simp [hdef _ _ hb]
            rfl
  · intro e parsed ts hexp hparse hmap
    unfold readIonosphereMapFile
    rw [hexp]
    simp only [bind, Except.bind]
    rw [hparse]
    simp only [bind, Except.bind]
    rw [hmap]
    rfl
  · intro e parsed err hexp hparse hmap
    unfold readIonosphereMapFile
    rw [hexp]
    simp only [bind, Except.bind]
    rw [hparse]
    simp only [bind, Except.bind]
    rw [hmap]

/-- Counterexample for C6 as stated: a file with height and radius headers
and a well-formed TEC section but no EXPONENT header is not recovered with
a default; read_ionosphere_map_file fails (IndexError) instead of
proceeding. -/
theorem ionex_missing_exponent_counterexample :
    (["450.0 HGT1", "6371.0 BASE RADIUS", "START OF TEC MAP", "x LAT/LON1/LON2/DLON/H",
        "1 2", "END OF TEC MAP"].filter (fun l => strContains l "EXPONENT") = []) ∧
    readIonosphereMapFile ["450.0 HGT1", "6371.0 BASE RADIUS", "START OF TEC MAP",
        "x LAT/LON1/LON2/DLON/H", "1 2", "END OF TEC MAP"] = .error .indexError := by
  constructor
  · decide
  · have he : extractExponent ["450.0 HGT1", "6371.0 BASE RADIUS", "START OF TEC MAP",
        "x LAT/LON1/LON2/DLON/H", "1 2", "END OF TEC MAP"] = .error .indexError := by
      have hf : ["450.0 HGT1", "6371.0 BASE RADIUS", "START OF TEC MAP",
          "x LAT/LON1/LON2/DLON/H", "1 2", "END OF TEC MAP"].filter
          (fun l => strContains l "EXPONENT") = [] := by decide
      unfold extractExponent extractHeaderValues
      rw [hf]
      rfl
    unfold readIonosphereMapFile
    rw [he]
    rfl

set_option maxHeartbeats 2000000 in
/-- Witness for the amended C6. At a file missing both the HGT1 and BASE
RADIUS headers whose timestamps all re-parse, defaults and warnings are
used and reading succeeds; at the same file with an out-of-range epoch
line (month, day, hour and minute 99), the strptime re-parse makes the
whole read fail with ValueError. -/
theorem ionex_header_defaults_witness :
    (["   0 EXPONENT", "START OF TEC MAP", "x LAT/LON1/LON2/DLON/H", "1 2",
        "END OF TEC MAP"].filter (fun l => strContains l "HGT1") = []) ∧
    extractOrDefault ["   0 EXPONENT", "START OF TEC MAP", "x LAT/LON1/LON2/DLON/H", "1 2",
        "END OF TEC MAP"] "HGT1" DEFAULT_IONOSPHERE_HEIGHT = (DEFAULT_IONOSPHERE_HEIGHT, true) ∧
    readIonosphereMapFile ["   0 EXPONENT", "START OF TEC MAP", "x LAT/LON1/LON2/DLON/H",
        "1 2", "END OF TEC MAP"] = .ok
        ⟨(extractOrDefault ["   0 EXPONENT", "START OF TEC MAP", "x LAT/LON1/LON2/DLON/H",
            "1 2", "END OF TEC MAP"] "HGT1" DEFAULT_IONOSPHERE_HEIGHT).1,
          (extractOrDefault ["   0 EXPONENT", "START OF TEC MAP", "x LAT/LON1/LON2/DLON/H",
            "1 2", "END OF TEC MAP"] "BASE RADIUS" DEFAULT_EARTH_RADIUS).1,
          (extractOrDefault ["   0 EXPONENT", "START OF TEC MAP", "x LAT/LON1/LON2/DLON/H",
            "1 2", "END OF TEC MAP"] "HGT1" DEFAULT_IONOSPHERE_HEIGHT).2,
          (extractOrDefault ["   0 EXPONENT", "START OF TEC MAP", "x LAT/LON1/LON2/DLON/H",
            "1 2", "END OF TEC MAP"] "BASE RADIUS" DEFAULT_EARTH_RADIUS).2,
          0, [], [[[1, 2]]], tecMapLatAxis, tecMapLonAxis⟩ ∧
    readIonosphereMapFile ["   0 EXPONENT", "START OF TEC MAP",
        "9999 99 99 99 99 EPOCH OF CURRENT MAP", "x LAT/LON1/LON2/DLON/H", "1 2",
        "END OF TEC MAP"] = .error .valueError := by
  have hh : (["   0 EXPONENT", "START OF TEC MAP", "x LAT/LON1/LON2/DLON/H", "1 2",
      "END OF TEC MAP"].filter (fun l => strContains l "HGT1") = []) := by decide
  have hexp : extractExponent ["   0 EXPONENT", "START OF TEC MAP", "x LAT/LON1/LON2/DLON/H",
      "1 2", "END OF TEC MAP"] = .ok 0 := by
    have hf : ["   0 EXPONENT", "START OF TEC MAP", "x LAT/LON1/LON2/DLON/H", "1 2",
        "END OF TEC MAP"].filter (fun l => strContains l "EXPONENT") = ["   0 EXPONENT"] := by
      decide
    unfold extractExponent extractHeaderValues
    rw [hf]
    norm_num [pySplitWs, splitWsGo, List.mapM_cons, List.mapM_nil]
    simp +decide [parseFloat, digitsToNat]
  have hexpE : extractExponent ["   0 EXPONENT", "START OF TEC MAP",
      "9999 99 99 99 99 EPOCH OF CURRENT MAP", "x LAT/LON1/LON2/DLON/H", "1 2",
      "END OF TEC MAP"] = .ok 0 := by
    have hf : ["   0 EXPONENT", "START OF TEC MAP", "9999 99 99 99 99 EPOCH OF CURRENT MAP",
        "x LAT/LON1/LON2/DLON/H", "1 2",
        "END OF TEC MAP"].filter (fun l => strContains l "EXPONENT") = ["   0 EXPONENT"] := by
      decide
    unfold extractExponent extractHeaderValues
    rw [hf]
    norm_num [pySplitWs, splitWsGo, List.mapM_cons, List.mapM_nil]
    simp +decide [parseFloat, digitsToNat]
  have h1 : markerIdxs ["   0 EXPONENT", "START OF TEC MAP", "x LAT/LON1/LON2/DLON/H", "1 2",
      "END OF TEC MAP"] "START OF TEC MAP" = [1] := by decide
  have h2 : markerIdxs ["   0 EXPONENT", "START OF TEC MAP", "x LAT/LON1/LON2/DLON/H", "1 2",
      "END OF TEC MAP"] "END OF TEC MAP" = [4] := by decide
  have h1E : markerIdxs ["   0 EXPONENT", "START OF TEC MAP",
      "9999 99 99 99 99 EPOCH OF CURRENT MAP", "x LAT/LON1/LON2/DLON/H", "1 2",
      "END OF TEC MAP"] "START OF TEC MAP" = [1] := by decide
  have h2E : markerIdxs ["   0 EXPONENT", "START OF TEC MAP",
      "9999 99 99 99 99 EPOCH OF CURRENT MAP", "x LAT/LON1/LON2/DLON/H", "1 2",
      "END OF TEC MAP"] "END OF TEC MAP" = [5] := by decide
  have hp : parseNumbers (String.join (sliceBetween ["x LAT/LON1/LON2/DLON/H", "1 2"] 0 2))
      = [1, 2] := by
    norm_num [parseNumbers, pySplitWs, splitWsGo, String.join, sliceBetween]
    simp +decide [parseFloat, digitsToNat]
  have hfe : ["x LAT/LON1/LON2/DLON/H", "1 2"].filter
      (fun l => ¬ strContains l "EPOCH OF CURRENT MAP")
      = ["x LAT/LON1/LON2/DLON/H", "1 2"] := by decide
  have hfeE : ["9999 99 99 99 99 EPOCH OF CURRENT MAP", "x LAT/LON1/LON2/DLON/H", "1 2"].filter
      (fun l => ¬ strContains l "EPOCH OF CURRENT MAP")
      = ["x LAT/LON1/LON2/DLON/H", "1 2"] := by decide
  have hmk : markerIdxs ["x LAT/LON1/LON2/DLON/H", "1 2"] "LAT/LON1/LON2/DLON/H" = [0] := by
    decide
  have h3 : tecSectionData 0 ["x LAT/LON1/LON2/DLON/H", "1 2"] = .ok [[1, 2]] := by
    simp only [tecSectionData, hfe, hmk, pairwiseL]
    norm_num [hp, pyVstack, Except.map]
  have h3E : tecSectionData 0 ["9999 99 99 99 99 EPOCH OF CURRENT MAP",
      "x LAT/LON1/LON2/DLON/H", "1 2"] = .ok [[1, 2]] := by
    simp only [tecSectionData, hfeE, hmk, pairwiseL]
    norm_num [hp, pyVstack, Except.map]
  have h4 : sliceBetween ["   0 EXPONENT", "START OF TEC MAP", "x LAT/LON1/LON2/DLON/H", "1 2",
      "END OF TEC MAP"] 1 4 = ["x LAT/LON1/LON2/DLON/H", "1 2"] := by decide
  have h4E : sliceBetween ["   0 EXPONENT", "START OF TEC MAP",
      "9999 99 99 99 99 EPOCH OF CURRENT MAP", "x LAT/LON1/LON2/DLON/H", "1 2",
      "END OF TEC MAP"] 1 5
      = ["9999 99 99 99 99 EPOCH OF CURRENT MAP", "x LAT/LON1/LON2/DLON/H", "1 2"] := by decide
  have hfmtE : epochTimestampFormatter "9999 99 99 99 99 EPOCH OF CURRENT MAP"
      = .ok ⟨9999, 99, 99, 99, 99⟩ := by decide
  have hparse : tecMapParsing ["   0 EXPONENT", "START OF TEC MAP", "x LAT/LON1/LON2/DLON/H",
      "1 2", "END OF TEC MAP"] ((0 : ℚ)).num = .ok ([], [[[1, 2]]]) := by
    have hnum : ((0 : ℚ)).num = 0 := rfl
    rw [hnum]
    simp only [tecMapParsing, h1, h2]
    norm_num [h4]
    simp +decide [List.mapM.loop, h3, Functor.map, Except.map, bind, Except.bind, pure,
      Except.pure, strContains]
  have hparseE : tecMapParsing ["   0 EXPONENT", "START OF TEC MAP",
      "9999 99 99 99 99 EPOCH OF CURRENT MAP", "x LAT/LON1/LON2/DLON/H", "1 2",
      "END OF TEC MAP"] ((0 : ℚ)).num = .ok ([⟨9999, 99, 99, 99, 99⟩], [[[1, 2]]]) := by
    have hnum : ((0 : ℚ)).num = 0 := rfl
    rw [hnum]
    simp only [tecMapParsing, h1E, h2E]
    norm_num [h4E]
    simp +decide [List.mapM.loop, h3E, hfmtE, Functor.map, Except.map, bind, Except.bind, pure,
      Except.pure, strContains]
  have hmapE : ([(⟨9999, 99, 99, 99, 99⟩ : TecEpoch)]).mapM strptimeEpoch
      = .error .valueError := by decide
  have hmain := (ionex_header_defaults _).2.2.2.1 0 ([], [[[1, 2]]]) [] hexp hparse (by decide)
  have hmainE := (ionex_header_defaults _).2.2.2.2 0 ([⟨9999, 99, 99, 99, 99⟩], [[[1, 2]]])
    .valueError hexpE hparseE hmapE
  refine ⟨hh, (ionex_header_defaults _).1 hh, ?_, hmainE⟩
  rw [hmain]
  rfl

theorem argminList_lt_length : ∀ (l : List ℚ), l ≠ [] → argminList l < l.length
  | [], h => absurd rfl h
  | [_], _ => Nat.zero_lt_one
  | x :: y :: xs, _ => by
    have ih := argminList_lt_length (y :: xs) (by simp)
    simp only [argminList]
    split
    · simp
    · simpa using Nat.succ_lt_succ ih

theorem argminList_le : ∀ (l : List ℚ) (i : Nat), i < l.length →
    l.getD (argminList l) 0 ≤ l.getD i 0
  | [], i, hi => by simp at hi
  | [x], i, hi => by
    obtain rfl : i = 0 := Nat.lt_one_iff.mp (by simpa using hi)
    simp [argminList]
  | x :: y :: xs, i, hi => by
    have ih := fun k hk => argminList_le (y :: xs) k hk
    simp only [argminList]
    split
    · rename_i hle
      cases i with
      | zero => simp
      | succ i' =>
        rw [List.getD_cons_zero, List.getD_cons_succ]
        exact le_trans hle (ih i' (by simpa using hi))
    · rename_i hgt
      push_neg at hgt
      cases i with
      | zero =>
        rw [List.getD_cons_succ, List.getD_cons_zero]
        exact le_of_lt hgt
      | succ i' =>
        rw [List.getD_cons_succ, List.getD_cons_succ]
        exact ih i' (by simpa using hi)

theorem getD_map_abs (ts : List ℚ) (acq : ℚ) (i : Nat) (h : i < ts.length) :
    (ts.map (fun t => |acq - t|)).getD i 0 = |acq - ts.getD i 0| := by
  rw [List.getD_eq_getElem _ _ (by simpa using h), List.getD_eq_getElem _ _ h,
    List.getElem_map]

theorem pySlice_two (l : List ℚ) (k : Nat) (h : k + 2 ≤ l.length) :
    pySlice l (k : Int) ((k : Int) + 2) = [l.getD k 0, l.getD (k + 1) 0] := by
  have hk : pySliceNorm l.length (k : Int) = k := by
    unfold pySliceNorm
    rw [if_neg (by omega)]
    omega
  have hk2 : pySliceNorm l.length ((k : Int) + 2) = k + 2 := by
    unfold pySliceNorm
    rw [if_neg (by omega)]
    omega
  have h1 : k < l.length := by omega
  have h2 : k + 1 < l.length := by omega
  have h22 : pySliceNorm l.length ((k : Int) + 2) - pySliceNorm l.length (k : Int) = 2 := by
    rw [hk, hk2]
    omega
  unfold pySlice
  rw [h22, hk, List.getD_eq_getElem _ _ h1, List.getD_eq_getElem _ _ h2,
    List.drop_eq_getElem_cons h1, List.drop_eq_getElem_cons h2]
  rfl

/-- C8 (amended): for strictly increasing parsed map epochs, whenever the
acquisition time lies in the half-open interval from the first epoch up to
but excluding the last, the closest-epoch selection with the
shift-back-by-one correction yields two consecutive existing epochs
sandwiching the acquisition time; at acquisition times equal to or past the
last epoch, or before the first, the selected slice degenerates to fewer
than two epochs instead of using an earlier-available bracket. -/
theorem iono_bracket_two_epochs (ts : List ℚ) (acq : ℚ)
    (hs : ts.Sorted (· < ·))
    (h0 : ts.getD 0 0 ≤ acq)
    (h1 : acq < ts.getD (ts.length - 1) 0) :
    ∃ k : Nat, k + 1 < ts.length ∧
      selectBracketIdx ts acq = (k : Int) ∧
      selectBracket ts acq = [ts.getD k 0, ts.getD (k + 1) 0] ∧
      ts.getD k 0 ≤ acq ∧ acq < ts.getD (k + 1) 0 := by
  have hlen2 : 2 ≤ ts.length := by
    by_contra hn
    push_neg at hn
    have he : ts.length - 1 = 0 := by omega
    rw [he] at h1
    linarith
  have hne : ts ≠ [] := by
    intro h
    rw [h] at hlen2
    simp at hlen2
  have hdne : ts.map (fun t => |acq - t|) ≠ [] := by
    simpa using hne
  have hjlt : argminList (ts.map (fun t => |acq - t|)) < ts.length := by
    have := argminList_lt_length _ hdne
    simpa using this
  set j := argminList (ts.map (fun t => |acq - t|)) with hj
  have hmin : ∀ i, i < ts.length → |acq - ts.getD j 0| ≤ |acq - ts.getD i 0| := by
    intro i hi
    have h := argminList_le (ts.map (fun t => |acq - t|)) i (by simpa using hi)
    rw [← hj, getD_map_abs ts acq j hjlt, getD_map_abs ts acq i hi] at h
    exact h
  have hidx : selectBracketIdx ts acq =
      if 0 < ts.getD j 0 - acq then (j : Int) - 1 else (j : Int) := by
    simp only [selectBracketIdx, ← hj]
  by_cases hc : 0 < ts.getD j 0 - acq
  · have hj1 : 1 ≤ j := by
      rcases Nat.eq_zero_or_pos j with hz | hp
      · rw [hz] at hc
        linarith
      · exact hp
    have hkey : selectBracketIdx ts acq = ((j - 1 : Nat) : Int) := by
      rw [hidx, if_pos hc]
      omega
    refine ⟨j - 1, by omega, hkey, ?_, ?_, ?_⟩
    · rw [selectBracket, hkey]
      exact pySlice_two ts (j - 1) (by omega)
    · by_contra hlt
      push_neg at hlt
      have hsl : ts.getD (j - 1) 0 < ts.getD j 0 :=
        sorted_getD_lt ts hs (j - 1) j (by omega) hjlt
      have hm := hmin (j - 1) (by omega)
      rw [abs_of_neg (show acq - ts.getD j 0 < 0 by linarith),
        abs_of_neg (show acq - ts.getD (j - 1) 0 < 0 by linarith)] at hm
      linarith
    · have he : j - 1 + 1 = j := by omega
      rw [he]
      linarith
  · push_neg at hc
    have hjn : j + 1 < ts.length := by
      by_contra h
      push_neg at h
      have he : j = ts.length - 1 := by omega
      rw [he] at hc
      linarith
    have hkey : selectBracketIdx ts acq = (j : Int) := by
      rw [hidx, if_neg (by linarith)]
    refine ⟨j, hjn, hkey, ?_, by linarith, ?_⟩
    · rw [selectBracket, hkey]
      exact pySlice_two ts j (by omega)
    · by_contra hlt
      push_neg at hlt
      have hsl : ts.getD j 0 < ts.getD (j + 1) 0 :=
        sorted_getD_lt ts hs j (j + 1) (by omega) hjn
      have hm := hmin (j + 1) hjn
      rw [abs_of_nonneg (show (0 : ℚ) ≤ acq - ts.getD j 0 by linarith),
        abs_of_nonneg (show (0 : ℚ) ≤ acq - ts.getD (j + 1) 0 by linarith)] at hm
      linarith

/-- Counterexample for C8 as stated: with the strictly increasing epochs
0 s and 3600 s and an acquisition time of exactly 3600 s (inside the
recorded interval, at its right edge), the selected bracket is the single
epoch 3600, not two epochs: the shift-back correction fires only when the
closest epoch is strictly later than the acquisition time, so no
earlier-available bracket is used. -/
theorem iono_bracket_counterexample :
    selectBracket [(0 : ℚ), 3600] 3600 = [3600] ∧
    (selectBracket [(0 : ℚ), 3600] 3600).length ≠ 2 ∧
    ([(0 : ℚ), 3600].getD 0 0 ≤ 3600 ∧ (3600 : ℚ) ≤ [(0 : ℚ), 3600].getD 1 0) := by
  have h : selectBracket [(0 : ℚ), 3600] 3600 = [3600] := by
    have ha : argminList ([(0 : ℚ), 3600].map (fun t => |3600 - t|)) = 1 := by
      norm_num [argminList]
    have hi : selectBracketIdx [(0 : ℚ), 3600] 3600 = 1 := by
      simp only [selectBracketIdx, ha]
      norm_num
    rw [selectBracket, hi]
    norm_num [pySlice, pySliceNorm]
    decide
  refine ⟨h, by rw [h]; decide, by norm_num⟩

/-- Witness for the amended C8 at epochs 0, 3600, 7200 s and acquisition
time 3600 s: the bracket is the consecutive pair 3600, 7200. -/
theorem iono_bracket_two_epochs_witness :
    ∃ k : Nat, k + 1 < ([(0 : ℚ), 3600, 7200]).length ∧
      selectBracketIdx [(0 : ℚ), 3600, 7200] 3600 = (k : Int) ∧
      selectBracket [(0 : ℚ), 3600, 7200] 3600 =
        [[(0 : ℚ), 3600, 7200].getD k 0, [(0 : ℚ), 3600, 7200].getD (k + 1) 0] ∧
      [(0 : ℚ), 3600, 7200].getD k 0 ≤ 3600 ∧
      (3600 : ℚ) < [(0 : ℚ), 3600, 7200].getD (k + 1) 0 :=
  iono_bracket_two_epochs [(0 : ℚ), 3600, 7200] 3600
    (by norm_num [List.sorted_cons]) (by norm_num) (by norm_num)

end Perturbations
